import Mathlib

/-!
# Scheduled publishing engine of copya-back

A shallow embedding of `src/models/ScheduledPost.js`, `src/services/schedulerService.js`
and the scheduling handler of `src/controllers/postController.js`.

Conventions of the embedding

* A Mongoose document is a record of the fields the code reads and writes.  Properties that
  the scheduler service uses on the document although the schema does not declare them
  (`platform`, `content`, `executionStarted`, `cancelledAt`, ...) are optional fields: they are
  absent from every document that was written through the schema.
* A write (`save`, `findByIdAndUpdate`) persists the paths that the schema declares and no
  other property, and the constructor of a document ignores the keys that the schema does
  not declare.  The `save()` of a new document first validates its required paths.
* Instants are milliseconds since the epoch (`Nat`); the instant returned by `new Date()`
  during an operation is a parameter `now` of that operation.
* The database is an association list from document ids to documents.  Whether the store
  answers a lookup, whether it accepts a write, and what the platform publisher answers are
  outcomes of the environment and are passed in explicitly.
-/

set_option autoImplicit false

namespace CopyaBack

/-! ## Data model (`src/models/ScheduledPost.js`, lines 3-112) -/

/-- Status of one entry of `platforms` (schema enum, line 27). -/
inductive TargetStatus where
  | scheduled
  | publishing
  | published
  | failed
  | cancelled
  deriving DecidableEq, Repr

/-- Status of the whole post (schema enum, line 57). -/
inductive PostStatus where
  | scheduled
  | publishing
  | published
  | partially_published
  | failed
  | cancelled
  deriving DecidableEq, Repr

/-- The post status written by `this.status = uniqueStatuses[0]`: the same string. -/
def TargetStatus.toPostStatus : TargetStatus → PostStatus
  | .scheduled => .scheduled
  | .publishing => .publishing
  | .published => .published
  | .failed => .failed
  | .cancelled => .cancelled

/-- The `error` sub-document of a platform entry (lines 32-36). -/
structure PlatformError where
  message : String
  code : String
  timestamp : Nat
  deriving DecidableEq, Repr

/-- The `metrics` sub-document of a platform entry (lines 37-43). -/
structure Metrics where
  likes : Nat := 0
  comments : Nat := 0
  shares : Nat := 0
  reach : Nat := 0
  impressions : Nat := 0
  deriving DecidableEq, Repr

/-- One entry of `platforms` (lines 14-44). -/
structure PlatformTarget where
  platform : String
  accountId : Nat
  status : TargetStatus := .scheduled
  publishedAt : Option Nat := none
  platformPostId : Option String := none
  error : Option PlatformError := none
  metrics : Metrics := {}
  deriving DecidableEq, Repr

/-- The `retryConfig` sub-document (lines 61-75).  `maxRetries` and `currentRetries` are
schema paths of type `Number` without the restriction to integers, so they are rationals here
(every finite double is one; rounding is left out).  `retryInterval` is a number of
milliseconds and `nextRetryAt` an instant. -/
structure RetryConfig where
  maxRetries : ℚ := 3
  currentRetries : ℚ := 0
  nextRetryAt : Option Int := none
  retryInterval : Int := 300000
  deriving DecidableEq, Repr

/-- Values of `executionLogs[i].action` (line 102). -/
inductive LogAction where
  | scheduled
  | publishing
  | published
  | failed
  | retrying
  | cancelled
  deriving DecidableEq, Repr

/-- An error value as the code inspects it: `error.message` and `error.code`. -/
structure JsError where
  message : Option String := none
  code : Option String := none
  deriving DecidableEq, Repr

/-- One entry of `executionLogs` (lines 95-107). -/
structure LogEntry where
  timestamp : Nat
  action : LogAction
  platform : Option String := none
  message : String
  error : Option JsError := none
  deriving DecidableEq, Repr

/-- What a platform publisher resolves to; the service reads `publishResult.postId`. -/
structure PublishResult where
  postId : String
  deriving DecidableEq, Repr

/-- The `media` object the service reads (`media?.imageUrl`, `media?.link`). -/
structure Media where
  imageUrl : Option String := none
  link : Option String := none
  deriving DecidableEq, Repr

/-- A ScheduledPost document.  The fields from `userId` to `completedAt`, and `createdAt` (from
`timestamps`), are schema paths; the others are the properties that `schedulerService.js` and
`postController.js` read or assign on the document although the schema does not declare
them. -/
structure ScheduledPost where
  userId : Nat
  contentId : Option Nat := none
  platforms : List PlatformTarget := []
  scheduledDate : Option Nat := none
  status : PostStatus := .scheduled
  retryConfig : RetryConfig := {}
  executionLogs : List LogEntry := []
  publishedAt : Option Nat := none
  completedAt : Option Nat := none
  title : Option String := none
  content : Option String := none
  platform : Option String := none
  media : Option Media := none
  publishAt : Option String := none
  imageUrl : Option String := none
  executionStarted : Option Nat := none
  platformPostId : Option String := none
  publishResult : Option PublishResult := none
  error : Option String := none
  failedAt : Option Nat := none
  cancelledAt : Option Nat := none
  createdAt : Option Nat := none
  deriving DecidableEq, Repr

/-! ## Entity operations (`src/models/ScheduledPost.js`) -/

/-- How a template literal prints a possibly undefined string. -/
def jsString (value : Option String) : String :=
  value.getD "undefined"

/-- The decimal digits of `r / d` after the point, for a remainder `r < d`: at most `fuel`
digits, fewer when the expansion ends. -/
def fractionDigits (d : Nat) : Nat → Nat → String
  | 0, _ => ""
  | fuel + 1, r =>
    if r = 0 then "" else toString (r * 10 / d) ++ fractionDigits d fuel (r * 10 % d)

/-- How a template literal prints a number, in the range where JavaScript prints plain
decimal digits: an integer as its digits (`3`), another number with its decimal digits
(`2.5`), cut after 17 of them. -/
def jsNumber (x : ℚ) : String :=
  let sign := if x < 0 then "-" else ""
  if x.den = 1 then sign ++ toString x.num.natAbs
  else
    sign ++ toString (x.num.natAbs / x.den) ++ "."
      ++ fractionDigits x.den 17 (x.num.natAbs % x.den)

/-- The array `[...new Set(xs)]`: the distinct values of `xs` in order of first occurrence. -/
def uniqueValues {α : Type} [DecidableEq α] : List α → List α
  | [] => []
  | x :: xs => x :: (uniqueValues xs).filter (fun y => decide (y ≠ x))

/-- The constant `completedStatuses` of line 195. -/
def completedStatuses : List TargetStatus := [.published, .failed, .cancelled]

/-- Method `updateOverallStatus` (lines 179-199). -/
def updateOverallStatus (now : Nat) (post : ScheduledPost) : ScheduledPost :=
  let platformStatuses := post.platforms.map (fun p => p.status)
  let uniqueStatuses := uniqueValues platformStatuses
  let status : PostStatus :=
    match uniqueStatuses with
    | [s] => s.toPostStatus
    | _ =>
      if platformStatuses.contains .published && platformStatuses.contains .failed then
        .partially_published
      else if platformStatuses.contains .publishing then
        .publishing
      else
        post.status
  let completedAt : Option Nat :=
    if platformStatuses.all (fun s => completedStatuses.contains s) then some now
    else post.completedAt
  { post with status := status, completedAt := completedAt }

/-- Method `cancel` (lines 220-235). -/
def cancel (now : Nat) (post : ScheduledPost) (reason : String := "Cancelled by user") :
    ScheduledPost :=
  { post with
    status := .cancelled
    platforms := post.platforms.map (fun platform =>
      if platform.status = .scheduled then { platform with status := .cancelled } else platform)
    executionLogs := post.executionLogs ++
      [{ action := .cancelled, message := reason, timestamp := now }] }

/-- The optional third argument `metrics` of `markPlatformAsPublished`: the counters the
caller supplies. -/
structure MetricsUpdate where
  likes : Option Nat := none
  comments : Option Nat := none
  shares : Option Nat := none
  reach : Option Nat := none
  impressions : Option Nat := none
  deriving DecidableEq, Repr

/-- The object spread of line 133: the supplied counters replace the stored ones. -/
def Metrics.merge (stored : Metrics) (supplied : MetricsUpdate) : Metrics :=
  { likes := supplied.likes.getD stored.likes
    comments := supplied.comments.getD stored.comments
    shares := supplied.shares.getD stored.shares
    reach := supplied.reach.getD stored.reach
    impressions := supplied.impressions.getD stored.impressions }

/-- `Array.prototype.findIndex`: the index of the first element that satisfies the test,
`none` for the answer -1. -/
def findIndex {α : Type} (test : α → Bool) : List α → Option Nat
  | [] => none
  | x :: xs => if test x then some 0 else (findIndex test xs).map (fun i => i + 1)

/-- Assignments to the element at an index of an array: the element is replaced by
`change` of it. -/
def modifyAt {α : Type} (change : α → α) : Nat → List α → List α
  | _, [] => []
  | 0, x :: xs => change x :: xs
  | i + 1, x :: xs => x :: modifyAt change i xs

/-- Method `markPlatformAsPublished` (lines 126-148). -/
def markPlatformAsPublished (now : Nat) (platform : String) (platformPostId : String)
    (post : ScheduledPost) (metrics : MetricsUpdate := {}) : ScheduledPost :=
  match findIndex (fun p => decide (p.platform = platform)) post.platforms with
  | none => post
  | some platformIndex =>
    updateOverallStatus now
      { post with
        platforms := modifyAt (fun target =>
          { target with
            status := .published
            publishedAt := some now
            platformPostId := some platformPostId
            metrics := target.metrics.merge metrics }) platformIndex post.platforms
        executionLogs := post.executionLogs ++
          [{ action := .published, platform := some platform,
             message := "Successfully published to " ++ platform, timestamp := now }] }

/-- The value of `text || fallback` for a possibly undefined string: the empty string is
falsy. -/
def orDefault (text : Option String) (fallback : String) : String :=
  match text with
  | none => fallback
  | some value => if value = "" then fallback else value

/-- Method `markPlatformAsFailed` (lines 151-176). -/
def markPlatformAsFailed (now : Nat) (platform : String) (error : JsError)
    (post : ScheduledPost) : ScheduledPost :=
  match findIndex (fun p => decide (p.platform = platform)) post.platforms with
  | none => post
  | some platformIndex =>
    updateOverallStatus now
      { post with
        platforms := modifyAt (fun target =>
          { target with
            status := .failed
            error := some
              { message := orDefault error.message "Unknown error"
                code := orDefault error.code "UNKNOWN_ERROR"
                timestamp := now } }) platformIndex post.platforms
        executionLogs := post.executionLogs ++
          [{ action := .failed, platform := some platform,
             message := "Failed to publish to " ++ platform ++ ": " ++ jsString error.message,
             error := some error, timestamp := now }] }

/-- Method `scheduleRetry` (lines 202-217). -/
def scheduleRetry (now : Nat) (post : ScheduledPost) : ScheduledPost :=
  if post.retryConfig.currentRetries < post.retryConfig.maxRetries then
    { post with
      retryConfig :=
        { post.retryConfig with
          currentRetries := post.retryConfig.currentRetries + 1
          nextRetryAt := some ((now : Int) + post.retryConfig.retryInterval) }
      status := .scheduled
      executionLogs := post.executionLogs ++
        [{ action := .retrying,
           message := "Scheduled retry " ++ jsNumber (post.retryConfig.currentRetries + 1)
             ++ "/" ++ jsNumber post.retryConfig.maxRetries,
           timestamp := now }] }
  else post

/-- A finite sequence of `scheduleRetry` calls, one at each of the given instants. -/
def scheduleRetries (instants : List Nat) (post : ScheduledPost) : ScheduledPost :=
  instants.foldl (fun p now => scheduleRetry now p) post

/-- Whether running `updateOverallStatus` on the post would leave its status as it is. -/
def statusSettled (post : ScheduledPost) : Bool :=
  decide ((updateOverallStatus 0 post).status = post.status)

/-- The overall status that section 4.3, step 5 of the specification prescribes for a list of
target statuses, written from the specification's words (not from the code):
all published, all cancelled, published and failed with nothing scheduled or publishing,
any publishing, all scheduled, otherwise failed. -/
def specOverallStatus (statuses : List TargetStatus) : PostStatus :=
  if statuses.all (fun s => decide (s = .published)) then .published
  else if statuses.all (fun s => decide (s = .cancelled)) then .cancelled
  else if statuses.contains .published && statuses.contains .failed
      && !statuses.contains .scheduled && !statuses.contains .publishing then
    .partially_published
  else if statuses.contains .publishing then .publishing
  else if statuses.all (fun s => decide (s = .scheduled)) then .scheduled
  else .failed

/-- Whether the post's status is the step-5 function of its target statuses. -/
def matchesStep5 (post : ScheduledPost) : Bool :=
  decide (post.status = specOverallStatus (post.platforms.map (fun t => t.status)))

/-- The retry delay that section 4.2 of the specification prescribes, written from the
specification's words (not from the code): the base interval times two to the power of the
attempts used, capped at a maximum. -/
def specRetryDelay (baseInterval : Int) (attemptsUsed : Nat) (cap : Int) : Int :=
  min (baseInterval * 2 ^ attemptsUsed) cap

/-- The target list that section 4.2 of the specification prescribes after a granted retry,
written from the specification's words (not from the code): failed targets are reset to
scheduled, every other target is left untouched. -/
def specRetryTargets (targets : List PlatformTarget) : List PlatformTarget :=
  targets.map (fun t => if t.status = .failed then { t with status := .scheduled } else t)

/-! ## The document store and the environment -/

/-- The ScheduledPost collection: documents by id. -/
abbrev Store := List (Nat × ScheduledPost)

/-- The lookup `ScheduledPost.findById(id)`: the stored document, or `none` for `null`. -/
def Store.findById (store : Store) (id : Nat) : Option ScheduledPost :=
  (store.find? (fun e => decide (e.1 = id))).map (fun e => e.2)

/-- Apply a change to the stored document with the given id (an accepted
`findByIdAndUpdate`, or the write behind an accepted `save`). -/
def Store.update (store : Store) (id : Nat) (change : ScheduledPost → ScheduledPost) : Store :=
  store.map (fun e => if e.1 = id then (e.1, change e.2) else e)

/-- What a write of the in-memory document `doc` leaves in the store in place of `stored`:
the paths that the schema declares are taken from `doc`; a property that the schema does not
declare is not written and stays as it is stored. -/
def ScheduledPost.persist (doc stored : ScheduledPost) : ScheduledPost :=
  { stored with
    userId := doc.userId
    contentId := doc.contentId
    platforms := doc.platforms
    scheduledDate := doc.scheduledDate
    status := doc.status
    retryConfig := doc.retryConfig
    executionLogs := doc.executionLogs
    publishedAt := doc.publishedAt
    completedAt := doc.completedAt
    createdAt := doc.createdAt }

/-- An accepted `doc.save()` of a document that was loaded from the store under `id`. -/
def Store.save (store : Store) (id : Nat) (doc : ScheduledPost) : Store :=
  store.update id (fun stored => doc.persist stored)

/-- An accepted `save()` of a newly constructed document under its generated id. -/
def Store.insert (store : Store) (id : Nat) (doc : ScheduledPost) : Store :=
  store ++ [(id, doc.persist { userId := doc.userId })]

/-- The required paths of the schema (lines 4-13 and 45-49) that the document lacks, each with
the message of its validator.  `userId` is always present in a document of this embedding. -/
def validationErrors (doc : ScheduledPost) : List String :=
  (if doc.contentId.isNone then ["contentId: Content ID is required"] else [])
    ++ (if doc.scheduledDate.isNone then ["scheduledDate: Scheduled date is required"] else [])

/-- The validation that `save()` runs before it writes: the message of the validation error,
or `none` when every required path is present. -/
def validationError (doc : ScheduledPost) : Option String :=
  if validationErrors doc = [] then none
  else some ("ScheduledPost validation failed: " ++ ", ".intercalate (validationErrors doc))

/-- A social account as `executeScheduledPost` reads it (lines 201-205, 221-222). -/
structure SocialAccount where
  platform : String
  isActive : Bool
  accessToken : String
  accountId : String
  deriving DecidableEq, Repr

/-- The populated `userId` of a post; `socialAccounts` may be undefined (`?.` on line 201). -/
structure User where
  socialAccounts : Option (List SocialAccount) := none
  deriving DecidableEq, Repr

/-- The `content` object of lines 210-214. -/
structure PublishContent where
  text : Option String
  imageUrl : Option String
  link : Option String
  deriving DecidableEq, Repr

/-- One invocation of a platform publisher: `platform` tells which of
`publishToInstagram`, `publishToFacebook`, `publishToLinkedIn` was called. -/
structure PublishCall where
  platform : String
  accessToken : String
  accountId : String
  content : PublishContent
  deriving DecidableEq, Repr

/-- The environment of one run of `executeScheduledPost`: the clock, the users that
`populate` resolves, the answer of the platform publisher to a call (`Except.error` is the
message of the error the call throws, as it does when `socialMediaService` has no such
method), and for each write the error the store raises, if any. -/
structure ExecEnv where
  now : Nat
  users : List (Nat × User)
  publish : PublishCall → Except String PublishResult
  saveStartedError : Option String := none
  savePublishedError : Option String := none
  updateFailedError : Option String := none

/-- The environment of the `save()` of a new document: the id the document gets and the
error the store raises for a document that has passed validation, if any. -/
structure CreateEnv where
  newId : Nat
  saveError : Option String := none

/-- The outcome of the `save()` of a new document: the validation error of the document, or
else the error of the store, or `none` when the document is written. -/
def CreateEnv.saveOutcome (create : CreateEnv) (doc : ScheduledPost) : Option String :=
  match validationError doc with
  | some message => some message
  | none => create.saveError

/-! ## Scheduler service (`src/services/schedulerService.js`) -/

namespace SchedulerService

/-- The `switch` of lines 218-245: the publisher (`publishToInstagram`, `publishToFacebook`
or `publishToLinkedIn`, named by its platform) chosen for `scheduledPost.platform`, or `none`
for the `default` case. -/
def publisherFor (platform : Option String) : Option String :=
  match platform with
  | some "instagram" => some "instagram"
  | some "facebook" => some "facebook"
  | some "linkedin" => some "linkedin"
  | _ => none

/-- Where the `try` block of `executeScheduledPost` got to: the store and the publisher
calls made so far, and the message of the error that left the block, if one did. -/
structure TryOutcome where
  store : Store
  calls : List PublishCall
  thrown : Option String

/-- Lines 200-245 for the in-memory document `started`: the publisher call, if one is made,
and either the message of the thrown error or the result of the publisher.  The lines read
`started.platform` and `user.socialAccounts`, which the schemas do not declare as paths: for a
document and an owner written through the schemas both are undefined and line 207 throws. -/
def callPublisher (env : ExecEnv) (started : ScheduledPost) :
    List PublishCall × Except String PublishResult :=
  match env.users.lookup started.userId with
  | none => ([], .error "Cannot read properties of null")
  | some user =>
    let socialAccount : Option SocialAccount :=
      user.socialAccounts.bind (fun accounts =>
        accounts.find? (fun account => decide (some account.platform = started.platform)))
    match socialAccount with
    | none =>
      ([], .error ("Cuenta de " ++ jsString started.platform ++ " no encontrada o inactiva"))
    | some account =>
      if !account.isActive then
        ([], .error ("Cuenta de " ++ jsString started.platform ++ " no encontrada o inactiva"))
      else
        let content : PublishContent :=
          { text := started.content
            imageUrl := started.media.bind (fun m => m.imageUrl)
            link := started.media.bind (fun m => m.link) }
        match publisherFor started.platform with
        | none => ([], .error ("Plataforma no soportada: " ++ jsString started.platform))
        | some publisher =>
          let call : PublishCall :=
            { platform := publisher
              accessToken := account.accessToken
              accountId := account.accountId
              content := content }
          ([call], env.publish call)

/-- The `try` block of `executeScheduledPost` after the guard (lines 192-257), for the loaded
document `scheduledPost`.  `updateUserPublishingStats` (line 255) writes only the user
document and swallows its own errors, so it does not appear in the outcome. -/
def executeTryBlock (env : ExecEnv) (store : Store) (postId : Nat)
    (scheduledPost : ScheduledPost) : TryOutcome :=
  let started : ScheduledPost :=
    { scheduledPost with status := .publishing, executionStarted := some env.now }
  match env.saveStartedError with
  | some message => ⟨store, [], some message⟩
  | none =>
    let store1 := store.save postId started
    match callPublisher env started with
    | (calls, .error message) => ⟨store1, calls, some message⟩
    | (calls, .ok publishResult) =>
      let published : ScheduledPost :=
        { started with
          status := .published
          publishedAt := some env.now
          platformPostId := some publishResult.postId
          publishResult := some publishResult }
      match env.savePublishedError with
      | some message => ⟨store1, calls, some message⟩
      | none => ⟨store1.save postId published, calls, none⟩

/-- The `catch` block of `executeScheduledPost` (lines 259-272) for the caught error
`message`: mark the stored post as failed, whatever its status; an error of that update is
only logged.  Of the three keys of the update, `status` is a schema path; `error` and
`failedAt` are not and are not written. -/
def executeCatchBlock (env : ExecEnv) (store : Store) (postId : Nat) (_message : String) :
    Store :=
  match env.updateFailedError with
  | some _ => store
  | none => store.update postId (fun p => { p with status := .failed })

/-- Method `executeScheduledPost(postId)` (lines 183-273) when the lookup of line 185 is
answered: the store afterwards and the publisher calls it made. -/
def executeScheduledPost (env : ExecEnv) (store : Store) (postId : Nat) :
    Store × List PublishCall :=
  match store.findById postId with
  | none => (store, [])
  | some scheduledPost =>
    if scheduledPost.status ≠ .scheduled then (store, [])
    else
      let outcome := executeTryBlock env store postId scheduledPost
      match outcome.thrown with
      | none => (outcome.store, outcome.calls)
      | some message => (executeCatchBlock env outcome.store postId message, outcome.calls)

/-- Method `executeScheduledPost(postId)` (lines 183-273) with the outcome of the lookup of
line 185 made explicit: `lookupError` is the error with which
`findById(postId).populate('userId')` rejects, if it does.  The lookup is inside the `try`, so
its rejection is caught on line 259 like every other error. -/
def executeScheduledPostFrom (lookupError : Option String) (env : ExecEnv) (store : Store)
    (postId : Nat) : Store × List PublishCall :=
  match lookupError with
  | some message => (executeCatchBlock env store postId message, [])
  | none => executeScheduledPost env store postId

/-- Keys of the `activeTasks` map: the names of the recurring tasks and the per-post key
written as a template literal with prefix `post_` followed by the post id. -/
inductive TaskKey where
  | named (name : String)
  | post (postId : Nat)
  deriving DecidableEq, Repr

/-- A pending `setTimeout` timer of the runtime that will run `executeScheduledPost(postId)`;
`delay` is the delay passed to `setTimeout`, `none` when the computed delay is `NaN`. -/
structure Timeout where
  handle : Nat
  postId : Nat
  delay : Option Nat
  deriving DecidableEq, Repr

/-- The longest delay a timer of the runtime can have: 2^31 - 1 ms, about 24.9 days. -/
def maxTimeoutDelay : Nat := 2147483647

/-- The delay after which the runtime fires the timer: `setTimeout` sets a delay that is
greater than 2^31 - 1, less than 1 or `NaN` to 1. -/
def Timeout.firesAfter (timeout : Timeout) : Nat :=
  match timeout.delay with
  | none => 1
  | some delay => if delay < 1 ∨ maxTimeoutDelay < delay then 1 else delay

/-- The map `this.activeTasks`: task handles by key. -/
abbrev TaskMap := List (TaskKey × Nat)

/-- `Map.prototype.has`. -/
def TaskMap.has (tasks : TaskMap) (key : TaskKey) : Bool :=
  tasks.any (fun e => decide (e.1 = key))

/-- `Map.prototype.get`. -/
def TaskMap.get (tasks : TaskMap) (key : TaskKey) : Option Nat :=
  (tasks.find? (fun e => decide (e.1 = key))).map (fun e => e.2)

/-- `Map.prototype.delete`. -/
def TaskMap.delete (tasks : TaskMap) (key : TaskKey) : TaskMap :=
  tasks.filter (fun e => decide (e.1 ≠ key))

/-- `Map.prototype.set`. -/
def TaskMap.set (tasks : TaskMap) (key : TaskKey) (handle : Nat) : TaskMap :=
  if tasks.has key then tasks.map (fun e => if e.1 = key then (e.1, handle) else e)
  else tasks ++ [(key, handle)]

/-- Everything the scheduler service acts on: the post collection, the `activeTasks` map,
the timers pending in the runtime, the next timer handle, and the publisher calls made. -/
structure World where
  store : Store := []
  activeTasks : TaskMap := []
  timeouts : List Timeout := []
  nextHandle : Nat := 0
  calls : List PublishCall := []
  deriving DecidableEq, Repr

/-- `clearTimeout(handle)`. -/
def clearTimeout (timeouts : List Timeout) (handle : Option Nat) : List Timeout :=
  timeouts.filter (fun t => decide (some t.handle ≠ handle))

/-- Lines 144-149 of `scheduleIndividualPost`: `setTimeout` and `activeTasks.set`. -/
def registerTimeout (w : World) (postId : Nat) (delay : Option Nat) : World :=
  { w with
    timeouts := w.timeouts ++ [{ handle := w.nextHandle, postId := postId, delay := delay }]
    activeTasks := w.activeTasks.set (.post postId) w.nextHandle
    nextHandle := w.nextHandle + 1 }

/-- Method `scheduleIndividualPost(scheduledPost)` (lines 129-156) for the document stored
under `postId`.  A missing `scheduledDate` gives an invalid date: the comparison of line 134
is false and the delay is `NaN`.  The lookup inside an immediate run is taken as answered. -/
def scheduleIndividualPost (now : Nat) (env : ExecEnv) (w : World) (postId : Nat)
    (scheduledPost : ScheduledPost) : World :=
  match scheduledPost.scheduledDate with
  | some scheduledTime =>
    if scheduledTime ≤ now then
      let result := executeScheduledPost env w.store postId
      { w with store := result.1, calls := w.calls ++ result.2 }
    else
      registerTimeout w postId (some (scheduledTime - now))
  | none => registerTimeout w postId none

/-- The argument of `schedulePost` as the method destructures it (lines 282-290);
`scheduledDate` is the instant of `new Date(scheduledDate)`, `none` for an invalid date. -/
structure PostData where
  userId : Nat
  title : Option String := none
  content : Option String := none
  platform : Option String := none
  scheduledDate : Option Nat := none
  media : Media := {}
  deriving DecidableEq, Repr

/-- The document constructed on lines 301-311 of `schedulePost`.  Of the keys passed to the
constructor, `userId`, `scheduledDate`, `status` and `createdAt` are schema paths; `title`,
`content`, `platform`, `media` and `metadata` are not and are ignored.  No `contentId` is
passed. -/
def newScheduledPost (now : Nat) (postData : PostData) : ScheduledPost :=
  { userId := postData.userId
    scheduledDate := postData.scheduledDate
    status := .scheduled
    createdAt := some now }

/-- Method `schedulePost(postData)` (lines 280-326).  `now` is the instant read on line 294,
`registerNow` the one read afterwards inside `scheduleIndividualPost`. -/
def schedulePost (now registerNow : Nat) (create : CreateEnv) (env : ExecEnv)
    (postData : PostData) (w : World) : Except String ScheduledPost × World :=
  let pastOrPresent : Bool :=
    match postData.scheduledDate with
    | some scheduledTime => decide (scheduledTime ≤ now)
    | none => false
  if pastOrPresent then
    (.error "Error programando publicación: La fecha programada debe ser en el futuro", w)
  else
    let scheduledPost := newScheduledPost now postData
    match create.saveOutcome scheduledPost with
    | some message => (.error ("Error programando publicación: " ++ message), w)
    | none =>
      let saved : World := { w with store := w.store.insert create.newId scheduledPost }
      (.ok scheduledPost, scheduleIndividualPost registerNow env saved create.newId scheduledPost)

/-- The status as it is printed in the message of line 341. -/
def statusString : PostStatus → String
  | .scheduled => "scheduled"
  | .publishing => "publishing"
  | .published => "published"
  | .partially_published => "partially_published"
  | .failed => "failed"
  | .cancelled => "cancelled"

/-- Method `cancelScheduledPost(postId)` (lines 332-364) when the lookup of line 334 is
answered; `saveError` is the error the store raises for the `save()` of line 354, if any.
The returned in-memory document carries `cancelledAt`; the write persists `status` only,
since `cancelledAt` is not a schema path. -/
def cancelScheduledPost (now : Nat) (saveError : Option String) (w : World) (postId : Nat) :
    Except String ScheduledPost × World :=
  match w.store.findById postId with
  | none => (.error "Error cancelando publicación: Publicación no encontrada", w)
  | some scheduledPost =>
    if scheduledPost.status ≠ .scheduled then
      (.error ("Error cancelando publicación: No se puede cancelar una publicación con estado: "
        ++ statusString scheduledPost.status), w)
    else
      let taskKey := TaskKey.post postId
      let cleared : World :=
        if w.activeTasks.has taskKey then
          { w with
            timeouts := clearTimeout w.timeouts (w.activeTasks.get taskKey)
            activeTasks := w.activeTasks.delete taskKey }
        else w
      let cancelled : ScheduledPost :=
        { scheduledPost with status := .cancelled, cancelledAt := some now }
      match saveError with
      | some message => (.error ("Error cancelando publicación: " ++ message), cleared)
      | none => (.ok cancelled, { cleared with store := cleared.store.save postId cancelled })

/-- Method `cancelScheduledPost(postId)` (lines 332-364) with the outcome of the lookup of
line 334 made explicit: `lookupError` is the error with which `findById(postId)` rejects, if
it does.  The lookup is inside the `try`; the `catch` of lines 360-363 rethrows its error. -/
def cancelScheduledPostFrom (lookupError : Option String) (now : Nat)
    (saveError : Option String) (w : World) (postId : Nat) :
    Except String ScheduledPost × World :=
  match lookupError with
  | some message => (.error ("Error cancelando publicación: " ++ message), w)
  | none => cancelScheduledPost now saveError w postId

/-! ## Interleaving of two invocations of `executeScheduledPost`

An `async` method runs without interruption from one `await` to the next; between two awaits
other invocations may run.  The segments of `executeScheduledPost` are cut at its awaits.
Both lookups are taken as answered. -/

/-- Where one invocation of `executeScheduledPost` stands between two awaits. -/
inductive ExecPhase where
  /-- Called; the lookup of line 185 has not been answered. -/
  | start
  /-- Line 185 answered with this document; the guard and lines 195-197 come next. -/
  | loaded (doc : Option ScheduledPost)
  /-- The `save()` of line 197 was accepted; lines 200-245 come next. -/
  | saved (doc : ScheduledPost)
  /-- The publisher resolved; lines 248-252 come next. -/
  | publisherAnswered (doc : ScheduledPost) (publishResult : PublishResult)
  /-- An error was thrown; the `catch` block comes next. -/
  | failing (message : String)
  /-- Returned. -/
  | finished
  deriving DecidableEq, Repr

/-- One segment of `executeScheduledPost(postId)`: from the phase of the invocation and the
shared store and call log to the next phase. -/
def execStep (env : ExecEnv) (postId : Nat) (phase : ExecPhase)
    (shared : Store × List PublishCall) : ExecPhase × (Store × List PublishCall) :=
  match phase with
  | .start => (.loaded (shared.1.findById postId), shared)
  | .loaded none => (.finished, shared)
  | .loaded (some scheduledPost) =>
    if scheduledPost.status ≠ .scheduled then (.finished, shared)
    else
      let started : ScheduledPost :=
        { scheduledPost with status := .publishing, executionStarted := some env.now }
      match env.saveStartedError with
      | some message => (.failing message, shared)
      | none => (.saved started, (shared.1.save postId started, shared.2))
  | .saved started =>
    match callPublisher env started with
    | (calls, .error message) => (.failing message, (shared.1, shared.2 ++ calls))
    | (calls, .ok publishResult) =>
      (.publisherAnswered started publishResult, (shared.1, shared.2 ++ calls))
  | .publisherAnswered started publishResult =>
    let published : ScheduledPost :=
      { started with
        status := .published
        publishedAt := some env.now
        platformPostId := some publishResult.postId
        publishResult := some publishResult }
    match env.savePublishedError with
    | some message => (.failing message, shared)
    | none => (.finished, (shared.1.save postId published, shared.2))
  | .failing message => (.finished, (executeCatchBlock env shared.1 postId message, shared.2))
  | .finished => (.finished, shared)

/-- The two triggers of an execution: the timer of the post and the reconciliation sweep. -/
inductive Trigger where
  | timer
  | sweep
  deriving DecidableEq, Repr

/-- Two invocations of `executeScheduledPost(postId)` on one store. -/
structure Race where
  timerPhase : ExecPhase := .start
  sweepPhase : ExecPhase := .start
  store : Store
  calls : List PublishCall := []
  deriving DecidableEq, Repr

/-- Run the segments in the order given by the schedule. -/
def runSchedule (timerEnv sweepEnv : ExecEnv) (postId : Nat) : List Trigger → Race → Race
  | [], race => race
  | .timer :: rest, race =>
    let next := execStep timerEnv postId race.timerPhase (race.store, race.calls)
    runSchedule timerEnv sweepEnv postId rest
      { race with timerPhase := next.1, store := next.2.1, calls := next.2.2 }
  | .sweep :: rest, race =>
    let next := execStep sweepEnv postId race.sweepPhase (race.store, race.calls)
    runSchedule timerEnv sweepEnv postId rest
      { race with sweepPhase := next.1, store := next.2.1, calls := next.2.2 }

/-- One invocation run alone from its call to its return (at most five segments). -/
def runAlone (env : ExecEnv) (store : Store) (postId : Nat) : ExecPhase × (Store × List PublishCall) :=
  let s1 := execStep env postId .start (store, [])
  let s2 := execStep env postId s1.1 s1.2
  let s3 := execStep env postId s2.1 s2.2
  let s4 := execStep env postId s3.1 s3.2
  execStep env postId s4.1 s4.2

end SchedulerService

/-! ## Scheduling handler of the HTTP controller (`src/controllers/postController.js`) -/

namespace PostController

/-- The request of `schedulePost`: `req.user.id` and the fields read from `req.body`
(line 18).  `platforms` is `none` when the field is absent or falsy. -/
structure ScheduleRequest where
  userId : Nat
  content : Option String := none
  publishAt : Option String := none
  platforms : Option (List PlatformTarget) := none
  imageUrl : Option String := none
  deriving DecidableEq, Repr

/-- The response written by the handler: HTTP status and the `data` of a success. -/
structure Response where
  status : Nat
  data : Option ScheduledPost := none
  deriving DecidableEq, Repr

/-- Falsiness of a string field of the body: absent or empty. -/
def missing (field : Option String) : Bool :=
  match field with
  | none => true
  | some text => decide (text = "")

/-- The document constructed on lines 23-30 of the handler; an absent array path of a
Mongoose document is the empty array.  Of the keys passed to the constructor, `userId`,
`platforms` and `status` are schema paths; `content`, `publishAt` and `imageUrl` are not and
are ignored.  Neither `contentId` nor `scheduledDate` is passed. -/
def newPost (req : ScheduleRequest) : ScheduledPost :=
  { userId := req.userId
    platforms := req.platforms.getD []
    status := .scheduled }

/-- Handler `schedulePost(req, res)` (lines 16-37). -/
def schedulePost (create : CreateEnv) (req : ScheduleRequest) (store : Store) :
    Response × Store :=
  if missing req.content || missing req.publishAt || req.platforms.isNone then
    ({ status := 400 }, store)
  else
    match create.saveOutcome (newPost req) with
    | some _ => ({ status := 500 }, store)
    | none =>
      ({ status := 201, data := some (newPost req) }, store.insert create.newId (newPost req))

end PostController

/-! ## Usage limits (`src/middleware/usageLimit.js`, `src/models/User.js`) -/

namespace UsageLimit

/-- A `Date` as the code inspects it: the instant in milliseconds and the calendar fields
returned by `getFullYear()`, `getMonth()` and `getDate()`. -/
structure JsDate where
  time : Nat
  year : Nat
  month : Nat
  date : Nat
  deriving DecidableEq, Repr

/-- The `credits` sub-document of a user (`User.js`, lines 202-206). -/
structure Credits where
  total : Int := 0
  used : Int := 0
  deriving DecidableEq, Repr

/-- The `limits` sub-document of a user (lines 209-215). -/
structure Limits where
  monthlyPosts : Int := 10
  aiGenerations : Int := 50
  imageGenerations : Int := 10
  customerSupport : Int := 10
  deriving DecidableEq, Repr

/-- The `usage` sub-document of a user (lines 216-222). -/
structure Usage where
  currentMonthPosts : Int := 0
  currentMonthGenerations : Int := 0
  currentMonthImageGenerations : Int := 0
  lastResetDate : JsDate
  lastCustomerSupportReset : JsDate
  deriving DecidableEq, Repr

/-- The user document as the usage middleware reads it; `plan` tells whether the populated
`plan` is present. -/
structure User where
  plan : Bool
  planExpiresAt : Option JsDate := none
  trialEndsAt : Option JsDate := none
  isTrialActive : Bool := false
  credits : Credits := {}
  limits : Limits := {}
  usage : Usage
  deriving DecidableEq, Repr

/-- Method `isTrialPeriod` (`User.js`, lines 397-401). -/
def isTrialPeriod (now : JsDate) (user : User) : Bool :=
  match user.trialEndsAt with
  | none => false
  | some trialEndsAt => if !user.isTrialActive then false else decide (now.time < trialEndsAt.time)

/-- Method `checkCreditBalance` (lines 301-303). -/
def checkCreditBalance (user : User) (creditsToUse : Int := 1) : Bool :=
  decide (user.credits.used + creditsToUse ≤ user.credits.total)

/-- Method `checkUsageLimit(type)` of the user (lines 306-339): the answer and the user with
the counters it resets. -/
def userCheckUsageLimit (now : JsDate) (type : String) (user : User) : Bool × User :=
  let last := user.usage.lastResetDate
  let monthly : User :=
    if now.month ≠ last.month ∨ now.year ≠ last.year then
      { user with
        usage := { user.usage with
          currentMonthPosts := 0
          currentMonthGenerations := 0
          currentMonthImageGenerations := 0
          lastResetDate := now } }
    else user
  let lastSupport := monthly.usage.lastCustomerSupportReset
  let daily : User :=
    if now.date ≠ lastSupport.date ∨ now.month ≠ lastSupport.month
        ∨ now.year ≠ lastSupport.year then
      { monthly with usage := { monthly.usage with lastCustomerSupportReset := now } }
    else monthly
  let answer : Bool :=
    match type with
    | "posts" => decide (daily.usage.currentMonthPosts < daily.limits.monthlyPosts)
    | "generations" => decide (daily.usage.currentMonthGenerations < daily.limits.aiGenerations)
    | "imageGenerations" =>
      decide (daily.usage.currentMonthImageGenerations < daily.limits.imageGenerations)
    | "customerSupport" =>
      decide (daily.usage.currentMonthGenerations < daily.limits.customerSupport)
    | _ => true
  (answer, daily)

/-- The assignments of method `incrementUsage(type, amount)` (lines 342-361), before its
`save()`. -/
def incrementUsage (type : String) (user : User) (amount : Int := 1) : User :=
  match type with
  | "posts" =>
    { user with usage := { user.usage with
        currentMonthPosts := user.usage.currentMonthPosts + amount } }
  | "generations" =>
    { user with
      usage := { user.usage with
        currentMonthGenerations := user.usage.currentMonthGenerations + amount }
      credits := { user.credits with used := user.credits.used + amount } }
  | "imageGenerations" =>
    { user with
      usage := { user.usage with
        currentMonthImageGenerations := user.usage.currentMonthImageGenerations + amount }
      credits := { user.credits with used := user.credits.used + amount } }
  | "customerSupport" =>
    { user with usage := { user.usage with
        currentMonthGenerations := user.usage.currentMonthGenerations + amount } }
  | _ => user

/-- The assignment of method `useCredits(amount)` (lines 364-371), before its `save()`;
`none` when it throws `Insufficient credits`. -/
def useCredits (amount : Int) (user : User) : Option User :=
  if checkCreditBalance user amount then
    some { user with credits := { user.credits with used := user.credits.used + amount } }
  else none

/-- How the middleware ends: it calls `next()` with `req.userCredits` set, or answers with an
HTTP status. -/
inductive Outcome where
  | next (userCredits : Credits)
  | rejected (status : Nat)
  deriving DecidableEq, Repr

/-- The errors the store raises for the `save()` inside `useCredits` and for the `save()`
inside `incrementUsage`, if any. -/
structure SaveEnv where
  useCreditsError : Option String := none
  incrementUsageError : Option String := none

/-- The credits needed for an operation type (lines 63-64), `none` when the operation does not
use credits. -/
def creditsNeeded (operationType : String) : Option Int :=
  if operationType = "generations" then some 1
  else if operationType = "imageGenerations" then some 2
  else none

/-- The test of line 46: `user.planExpiresAt && new Date() > user.planExpiresAt`. -/
def planExpired (now : JsDate) (user : User) : Bool :=
  match user.planExpiresAt with
  | some planExpiresAt => decide (planExpiresAt.time < now.time)
  | none => false

/-- Middleware `checkUsageLimit` (`usageLimit.js`, lines 5-90): how it ends and the stored
user afterwards.  `stored` is the answer of `User.findById`. -/
def checkUsageLimit (now : JsDate) (env : SaveEnv) (stored : Option User)
    (operationType : String) : Outcome × Option User :=
  match stored with
  | none => (.rejected 404, none)
  | some user =>
    if isTrialPeriod now user then
      let checked := userCheckUsageLimit now operationType user
      if !checked.1 then (.rejected 403, stored)
      else
        let used := incrementUsage operationType checked.2
        match env.incrementUsageError with
        | some _ => (.rejected 500, stored)
        | none => (.next used.credits, some used)
    else if !user.plan then (.rejected 403, stored)
    else if planExpired now user then (.rejected 403, stored)
    else
      let checked := userCheckUsageLimit now operationType user
      if !checked.1 then (.rejected 403, stored)
      else
        match creditsNeeded operationType with
        | some needed =>
          if !checkCreditBalance checked.2 needed then (.rejected 403, stored)
          else
            match useCredits needed checked.2 with
            | none => (.rejected 500, stored)
            | some charged =>
              match env.useCreditsError with
              | some _ => (.rejected 500, stored)
              | none =>
                let used := incrementUsage operationType charged
                match env.incrementUsageError with
                | some _ => (.rejected 500, some charged)
                | none => (.next used.credits, some used)
        | none =>
          let used := incrementUsage operationType checked.2
          match env.incrementUsageError with
          | some _ => (.rejected 500, stored)
          | none => (.next used.credits, some used)

end UsageLimit

/-! ## Example data used in the evaluations below -/

namespace Example

/-- User 10 with `socialAccounts` populated: an active Instagram account and an active
Facebook account. -/
def users : List (Nat × User) :=
  [(10, { socialAccounts := some [
      { platform := "instagram", isActive := true, accessToken := "t-ig", accountId := "ig-1" },
      { platform := "facebook", isActive := true, accessToken := "t-fb", accountId := "fb-1" }] })]

/-- A publisher that succeeds on every call. -/
def publisherSucceeds : PublishCall → Except String PublishResult :=
  fun _ => .ok { postId := "remote-1" }

/-- A publisher that succeeds for Instagram and throws for Facebook. -/
def publisherFailsOnFacebook : PublishCall → Except String PublishResult :=
  fun call =>
    if call.platform = "facebook" then .error "Facebook is unavailable"
    else .ok { postId := "remote-1" }

/-- An environment at instant 2000 in which every write is accepted and the publisher
succeeds. -/
def env : ExecEnv := { now := 2000, users := users, publish := publisherSucceeds }

/-- User 10 as `populate('userId')` returns it on line 185: `socialAccounts` is a virtual of
the User schema (`src/models/User.js`, line 243) that this lookup does not populate, so the
property is undefined, whatever accounts the user has. -/
def populatedUsers : List (Nat × User) := [(10, {})]

/-- An environment at instant 2000 with the owner as `populate` returns it, in which every
write is accepted and a publisher, were it called, would succeed. -/
def envPopulated : ExecEnv :=
  { now := 2000, users := populatedUsers, publish := publisherSucceeds }

/-- The same environment with a publisher that would succeed for Instagram and throw for
Facebook. -/
def envPopulatedFacebookDown : ExecEnv :=
  { now := 2000, users := populatedUsers, publish := publisherFailsOnFacebook }

/-- A due post of user 10 with the single target Instagram, as the schema stores it. -/
def singleTargetPost : ScheduledPost :=
  { userId := 10, contentId := some 5, scheduledDate := some 1000,
    platforms := [{ platform := "instagram", accountId := 77 }] }

/-- A due post of user 10 with the two targets Instagram and Facebook. -/
def twoTargetPost : ScheduledPost :=
  { userId := 10, contentId := some 5, scheduledDate := some 1000,
    platforms := [{ platform := "instagram", accountId := 77 },
                  { platform := "facebook", accountId := 78 }] }

/-- The single-target post carrying the top-level `platform` that the service reads. -/
def singleTargetPostForInstagram : ScheduledPost :=
  { singleTargetPost with platform := some "instagram" }

/-- A post whose targets are published, failed and scheduled, with previous status
`publishing`. -/
def mixedPost : ScheduledPost :=
  { userId := 10, contentId := some 5, scheduledDate := some 1000, status := .publishing,
    platforms := [{ platform := "instagram", accountId := 77, status := .published },
                  { platform := "facebook", accountId := 78, status := .failed },
                  { platform := "linkedin", accountId := 79, status := .scheduled }] }

/-- A post of user 10 with one target, due at instant 900000. -/
def futurePost : ScheduledPost :=
  { userId := 10, contentId := some 5, scheduledDate := some 900000,
    platforms := [{ platform := "instagram", accountId := 77 }] }

/-- A world holding `futurePost` under id 1 with its timer registered. -/
def worldWithTimer : SchedulerService.World :=
  { store := [(1, futurePost)]
    activeTasks := [(.named "checkScheduledPosts", 0), (.post 1, 1)]
    timeouts := [{ handle := 1, postId := 1, delay := some 898000 }]
    nextHandle := 2 }

/-- A scheduling request with content and date whose `platforms` array is empty. -/
def emptyTargetsRequest : PostController.ScheduleRequest :=
  { userId := 10, content := some "hello", publishAt := some "2030-01-01T10:00:00Z",
    platforms := some [] }

/-- A scheduling request that names Instagram twice. -/
def duplicateTargetsRequest : PostController.ScheduleRequest :=
  { userId := 10, content := some "hello", publishAt := some "2030-01-01T10:00:00Z",
    platforms := some [{ platform := "instagram", accountId := 77 },
                       { platform := "instagram", accountId := 77 }] }

/-- The argument of the service method for a post due at instant 900000. -/
def futurePostData : SchedulerService.PostData :=
  { userId := 10, title := some "launch", content := some "hello",
    platform := some "instagram", scheduledDate := some 900000 }

/-- A published post: its single target is published and `completedAt` is stamped. -/
def publishedPost : ScheduledPost :=
  { userId := 10, contentId := some 5, scheduledDate := some 1000, status := .published,
    completedAt := some 1500,
    platforms := [{ platform := "instagram", accountId := 77, status := .published,
                    publishedAt := some 1500, platformPostId := some "remote-1" }] }

/-- A post as `executeScheduledPost` leaves it after a failure: status `failed`, the target
still `scheduled`. -/
def failedPost : ScheduledPost :=
  { singleTargetPost with status := .failed }

/-- A failed post whose single target is failed; no retry used yet. -/
def allFailedPost : ScheduledPost :=
  { userId := 10, contentId := some 5, scheduledDate := some 1000, status := .failed,
    platforms := [{ platform := "instagram", accountId := 77, status := .failed }] }

/-- The failed post after one retry has been used. -/
def allFailedPostRetriedOnce : ScheduledPost :=
  { allFailedPost with retryConfig := { currentRetries := 1 } }

/-- The failed post with all three retries used. -/
def exhaustedPost : ScheduledPost :=
  { allFailedPost with retryConfig := { currentRetries := 3 } }

/-- The failed post with two retries used and the retry limit 2.5. -/
def fractionalLimitPost : ScheduledPost :=
  { allFailedPost with retryConfig := { maxRetries := 5 / 2, currentRetries := 2 } }

/-- A partially published post: Instagram published, Facebook failed. -/
def partialPost : ScheduledPost :=
  { userId := 10, contentId := some 5, scheduledDate := some 1000,
    status := .partially_published,
    platforms := [{ platform := "instagram", accountId := 77, status := .published,
                    publishedAt := some 1500, platformPostId := some "remote-1" },
                  { platform := "facebook", accountId := 78, status := .failed }] }

/-- An environment in which the publisher throws on every call. -/
def publisherThrows : PublishCall → Except String PublishResult :=
  fun _ => .error "Platform is unavailable"

/-- The environment at instant 2000 with the owner as `populate` returns it and the publisher
that always throws. -/
def envPopulatedPublisherDown : ExecEnv :=
  { now := 2000, users := populatedUsers, publish := publisherThrows }

/-- A post of user 10 with one target, due 30 days (2592000000 ms) after instant 2000. -/
def farFuturePost : ScheduledPost :=
  { userId := 10, contentId := some 5, scheduledDate := some 2592002000,
    platforms := [{ platform := "instagram", accountId := 77 }] }

/-- A post in execution: Instagram publishing, Facebook failed, LinkedIn publishing. -/
def threeTargetPost : ScheduledPost :=
  { userId := 10, contentId := some 5, scheduledDate := some 1000, status := .publishing,
    platforms := [{ platform := "instagram", accountId := 77, status := .publishing },
                  { platform := "facebook", accountId := 78, status := .failed },
                  { platform := "linkedin", accountId := 79, status := .publishing }] }

/-- A post in execution whose single target is publishing. -/
def publishingPost : ScheduledPost :=
  { userId := 10, contentId := some 5, scheduledDate := some 1000, status := .publishing,
    platforms := [{ platform := "instagram", accountId := 77, status := .publishing }] }

/-- The two-target post as `executeScheduledPost` leaves it after a failure: status `failed`,
both targets still `scheduled`. -/
def failedTwoTargetPost : ScheduledPost :=
  { twoTargetPost with status := .failed }

/-- A post that lists Instagram twice: the first entry scheduled, the second publishing. -/
def duplicatePlatformPost : ScheduledPost :=
  { userId := 10, contentId := some 5, scheduledDate := some 1000, status := .publishing,
    platforms := [{ platform := "instagram", accountId := 77, status := .scheduled },
                  { platform := "instagram", accountId := 77, status := .publishing }] }

/-- A post in execution: Instagram published, Facebook publishing. -/
def lastTargetPublishingPost : ScheduledPost :=
  { userId := 10, contentId := some 5, scheduledDate := some 1000, status := .publishing,
    platforms := [{ platform := "instagram", accountId := 77, status := .published,
                    publishedAt := some 1500, platformPostId := some "remote-1" },
                  { platform := "facebook", accountId := 78, status := .publishing }] }

/-- A post whose Instagram target is published and whose Facebook target is cancelled. -/
def settledTargetsPost : ScheduledPost :=
  { userId := 10, contentId := some 5, scheduledDate := some 1000, status := .published,
    platforms := [{ platform := "instagram", accountId := 77, status := .published,
                    publishedAt := some 1500, platformPostId := some "remote-1" },
                  { platform := "facebook", accountId := 78, status := .cancelled }] }

/-- A post in execution: Instagram publishing, Facebook failed, LinkedIn published. -/
def stillPublishingPost : ScheduledPost :=
  { userId := 10, contentId := some 5, scheduledDate := some 1000, status := .publishing,
    platforms := [{ platform := "instagram", accountId := 77, status := .publishing },
                  { platform := "facebook", accountId := 78, status := .failed },
                  { platform := "linkedin", accountId := 79, status := .published }] }

/-- A post in execution with one target in each of the five statuses. -/
def allStatusesPost : ScheduledPost :=
  { userId := 10, contentId := some 5, scheduledDate := some 1000, status := .publishing,
    platforms := [{ platform := "instagram", accountId := 77, status := .scheduled },
                  { platform := "facebook", accountId := 78, status := .publishing },
                  { platform := "linkedin", accountId := 79, status := .published },
                  { platform := "instagram", accountId := 80, status := .failed },
                  { platform := "facebook", accountId := 81, status := .cancelled }] }

/-- The first day of March 2026, at noon. -/
def marchFirst : UsageLimit.JsDate :=
  { time := 1772366400000, year := 2026, month := 2, date := 1 }

/-- A user outside the trial period with a plan that does not expire, one credit left of ten
and counters far below the limits, last reset on the same day. -/
def lastCreditUser : UsageLimit.User :=
  { plan := true
    credits := { total := 10, used := 9 }
    usage := { currentMonthGenerations := 4, currentMonthImageGenerations := 1,
               lastResetDate := marchFirst, lastCustomerSupportReset := marchFirst } }

/-- The same user with two credits left of ten. -/
def twoCreditsUser : UsageLimit.User :=
  { lastCreditUser with credits := { total := 10, used := 8 } }

end Example

/-! ## Facts about `uniqueValues` -/

theorem mem_uniqueValues {α : Type} [DecidableEq α] (l : List α) (y : α) :
    y ∈ uniqueValues l ↔ y ∈ l := by
  induction l with
  | nil => simp [uniqueValues]
  | cons x xs ih =>
    simp only [uniqueValues, List.mem_cons, List.mem_filter, ih, decide_eq_true_eq]
    by_cases hyx : y = x <;> simp [hyx]

theorem uniqueValues_of_all_eq {α : Type} [DecidableEq α] (s : α) (l : List α)
    (hne : l ≠ []) (hall : ∀ y ∈ l, y = s) : uniqueValues l = [s] := by
  induction l with
  | nil => exact absurd rfl hne
  | cons x xs ih =>
    have hx : x = s := hall x (List.mem_cons_self x xs)
    subst hx
    simp only [uniqueValues, List.cons.injEq, true_and, List.filter_eq_nil_iff]
    intro y hy
    have : y = x := hall y (List.mem_cons_of_mem x ((mem_uniqueValues xs y).1 hy))
    simp [this]

theorem all_eq_of_uniqueValues {α : Type} [DecidableEq α] (s : α) (l : List α)
    (h : uniqueValues l = [s]) : l ≠ [] ∧ ∀ y ∈ l, y = s := by
  constructor
  · intro hl
    subst hl
    simp [uniqueValues] at h
  · intro y hy
    have : y ∈ uniqueValues l := (mem_uniqueValues l y).2 hy
    rw [h] at this
    simpa using this

/-! ## C1: the overall status computed by `updateOverallStatus` -/

/-- The status that `updateOverallStatus` leaves, spelled out on the list of target statuses
and the previous status. -/
theorem status_after_updateOverallStatus (now : Nat) (post : ScheduledPost) :
    (updateOverallStatus now post).status =
      (match uniqueValues (post.platforms.map (fun p => p.status)) with
       | [s] => s.toPostStatus
       | _ =>
         if (post.platforms.map (fun p => p.status)).contains .published
            && (post.platforms.map (fun p => p.status)).contains .failed then
           .partially_published
         else if (post.platforms.map (fun p => p.status)).contains .publishing then
           .publishing
         else post.status) := rfl

/-- C1 (counterexample).  The status left by `updateOverallStatus` is not the step-5 function
of the target statuses.  With targets published, failed, publishing the code answers
`partially_published` where step 5 answers `publishing`; with targets scheduled, published
and a previous status `cancelled` the code keeps `cancelled` where step 5 answers `failed`. -/
theorem updateOverallStatus_ne_specOverallStatus :
    (updateOverallStatus 0
        { userId := 1,
          platforms := [
            { platform := "instagram", accountId := 1, status := .published },
            { platform := "facebook", accountId := 2, status := .failed },
            { platform := "linkedin", accountId := 3, status := .publishing }],
          status := .publishing }).status = .partially_published
    ∧ specOverallStatus [.published, .failed, .publishing] = .publishing
    ∧ (updateOverallStatus 0
        { userId := 1,
          platforms := [
            { platform := "instagram", accountId := 1, status := .scheduled },
            { platform := "facebook", accountId := 2, status := .published }],
          status := .cancelled }).status = .cancelled
    ∧ specOverallStatus [.scheduled, .published] = .failed := by
  decide

/-- C1 (amended).  For every post with a non-empty target list, after `updateOverallStatus`:
if all targets share one status the post has that status; otherwise, if a published and a
failed target are both present the status is `partially_published` (also when scheduled or
publishing targets remain); otherwise, if some target is publishing the status is
`publishing`; in every remaining case the status is left as it was. -/
theorem updateOverallStatus_status (now : Nat) (post : ScheduledPost)
    (hne : post.platforms ≠ []) :
    (∀ s, (∀ t ∈ post.platforms, t.status = s) →
        (updateOverallStatus now post).status = s.toPostStatus)
    ∧ ((¬ ∃ s, ∀ t ∈ post.platforms, t.status = s) →
        (((∃ t ∈ post.platforms, t.status = .published) ∧
          (∃ t ∈ post.platforms, t.status = .failed)) →
            (updateOverallStatus now post).status = .partially_published)
        ∧ (¬ ((∃ t ∈ post.platforms, t.status = .published) ∧
              (∃ t ∈ post.platforms, t.status = .failed)) →
            (∃ t ∈ post.platforms, t.status = .publishing) →
            (updateOverallStatus now post).status = .publishing)
        ∧ (¬ ((∃ t ∈ post.platforms, t.status = .published) ∧
              (∃ t ∈ post.platforms, t.status = .failed)) →
            (¬ ∃ t ∈ post.platforms, t.status = .publishing) →
            (updateOverallStatus now post).status = post.status)) := by
  have hmap : post.platforms.map (fun p => p.status) ≠ [] := by
    simpa using hne
  have hcontains : ∀ s : TargetStatus,
      (post.platforms.map (fun p => p.status)).contains s = true ↔
        ∃ t ∈ post.platforms, t.status = s := by
    intro s
    simp [List.contains_iff_exists_mem_beq]
  constructor
  · intro s hall
    have hu : uniqueValues (post.platforms.map (fun p => p.status)) = [s] := by
      apply uniqueValues_of_all_eq s _ hmap
      intro y hy
      obtain ⟨t, ht, rfl⟩ := List.mem_map.1 hy
      exact hall t ht
    rw [status_after_updateOverallStatus, hu]
  · intro hnot
    have hdefault : ∀ s, uniqueValues (post.platforms.map (fun p => p.status)) ≠ [s] := by
      intro s hu
      apply hnot
      refine ⟨s, fun t ht => ?_⟩
      exact (all_eq_of_uniqueValues s _ hu).2 _ (List.mem_map.2 ⟨t, ht, rfl⟩)
    have hstatus : (updateOverallStatus now post).status =
        (if (post.platforms.map (fun p => p.status)).contains .published
            && (post.platforms.map (fun p => p.status)).contains .failed then
           PostStatus.partially_published
         else if (post.platforms.map (fun p => p.status)).contains .publishing then
           PostStatus.publishing
         else post.status) := by
      rw [status_after_updateOverallStatus]
      split
      · next s hu => exact absurd hu (hdefault s)
      · rfl
    refine ⟨?_, ?_, ?_⟩
    · rintro ⟨hp, hf⟩
      rw [hstatus, (hcontains _).2 hp, (hcontains _).2 hf]
      rfl
    · intro hpf hpub
      rw [hstatus, (hcontains .publishing).2 hpub]
      have : ((post.platforms.map (fun p => p.status)).contains .published
            && (post.platforms.map (fun p => p.status)).contains .failed) = false := by
        rw [Bool.and_eq_false_iff]
        by_contra hcon
        push_neg at hcon
        apply hpf
        exact ⟨(hcontains _).1 (by simpa using hcon.1), (hcontains _).1 (by simpa using hcon.2)⟩
      rw [this]
      rfl
    · intro hpf hpub
      rw [hstatus]
      have h1 : ((post.platforms.map (fun p => p.status)).contains .published
            && (post.platforms.map (fun p => p.status)).contains .failed) = false := by
        rw [Bool.and_eq_false_iff]
        by_contra hcon
        push_neg at hcon
        apply hpf
        exact ⟨(hcontains _).1 (by simpa using hcon.1), (hcontains _).1 (by simpa using hcon.2)⟩
      have h2 : (post.platforms.map (fun p => p.status)).contains .publishing = false := by
        by_contra hcon
        exact hpub ((hcontains _).1 (by simpa using hcon))
      rw [h1, h2]
      rfl

/-! ## Facts about the store and about `executeScheduledPost` -/

open SchedulerService

theorem findById_nil (j : Nat) : Store.findById [] j = none := rfl

theorem findById_cons (k : Nat) (v : ScheduledPost) (rest : Store) (j : Nat) :
    Store.findById ((k, v) :: rest) j = if k = j then some v else Store.findById rest j := by
  by_cases h : k = j <;> simp [Store.findById, List.find?_cons, h]

theorem update_cons (k : Nat) (v : ScheduledPost) (rest : Store) (id : Nat)
    (change : ScheduledPost → ScheduledPost) :
    Store.update ((k, v) :: rest) id change =
      (if k = id then (k, change v) else (k, v)) :: Store.update rest id change := rfl

theorem findById_update (store : Store) (id j : Nat) (change : ScheduledPost → ScheduledPost) :
    (store.update id change).findById j =
      if j = id then (store.findById j).map change else store.findById j := by
  induction store with
  | nil => simp [Store.update, Store.findById]
  | cons e rest ih =>
    obtain ⟨k, v⟩ := e
    rw [update_cons]
    by_cases hk : k = id
    · rw [if_pos hk, findById_cons, findById_cons, ih]
      by_cases hj : j = id
      · simp [hk, hj]
      · have : ¬ k = j := fun h => hj (h ▸ hk)
        simp [hj, this]
    · rw [if_neg hk, findById_cons, findById_cons, ih]
      by_cases hj : j = id
      · have : ¬ k = j := fun h => hk (h.trans hj)
        subst hj
        simp [hk]
      · simp [hj]

theorem findById_save (store : Store) (id : Nat) (doc old : ScheduledPost)
    (h : store.findById id = some old) :
    (store.save id doc).findById id = some (doc.persist old) := by
  simp [Store.save, findById_update, h]

/-- A write persists the status, the targets, the retry configuration and `completedAt` of
the written document, and leaves a stored `cancelledAt` as it is. -/
theorem persist_fields (doc stored : ScheduledPost) :
    (doc.persist stored).status = doc.status
    ∧ (doc.persist stored).platforms = doc.platforms
    ∧ (doc.persist stored).retryConfig = doc.retryConfig
    ∧ (doc.persist stored).completedAt = doc.completedAt
    ∧ (doc.persist stored).cancelledAt = stored.cancelledAt :=
  ⟨rfl, rfl, rfl, rfl, rfl⟩

theorem executeScheduledPost_of_missing (env : ExecEnv) (store : Store) (postId : Nat)
    (h : store.findById postId = none) :
    executeScheduledPost env store postId = (store, []) := by
  simp [executeScheduledPost, h]

theorem executeScheduledPost_of_not_scheduled (env : ExecEnv) (store : Store) (postId : Nat)
    (post : ScheduledPost) (h : store.findById postId = some post)
    (hs : post.status ≠ .scheduled) :
    executeScheduledPost env store postId = (store, []) := by
  simp [executeScheduledPost, h, hs]

/-- The publisher is called at most once, and a result comes from a call. -/
theorem callPublisher_cases (env : ExecEnv) (started : ScheduledPost) :
    (∃ calls m, calls.length ≤ 1 ∧ callPublisher env started = (calls, .error m))
    ∨ (∃ call r, env.publish call = .ok r ∧ callPublisher env started = ([call], .ok r)) := by
  unfold callPublisher
  cases h2 : List.lookup started.userId env.users with
  | none => exact Or.inl ⟨[], _, by simp, rfl⟩
  | some user =>
    cases h3 : (user.socialAccounts.bind fun accounts =>
        accounts.find? (fun account => decide (some account.platform = started.platform))) with
    | none => exact Or.inl ⟨[], _, by simp, by simp only [h3]; rfl⟩
    | some account =>
      cases h4 : account.isActive with
      | false => exact Or.inl ⟨[], _, by simp, by simp only [h3, h4]; rfl⟩
      | true =>
        cases h5 : publisherFor started.platform with
        | none => exact Or.inl ⟨[], _, by simp, by simp only [h3, h4, h5]; rfl⟩
        | some publisher =>
          cases h6 : env.publish
              { platform := publisher
                accessToken := account.accessToken
                accountId := account.accountId
                content :=
                  { text := started.content
                    imageUrl := started.media.bind (fun m => m.imageUrl)
                    link := started.media.bind (fun m => m.link) } } with
          | error m =>
            exact Or.inl ⟨[_], m, by simp, by simp only [h3, h4, h5, h6]; rfl⟩
          | ok r =>
            exact Or.inr ⟨_, r, h6, by simp only [h3, h4, h5, h6]; rfl⟩

/-- The three shapes of the outcome of the `try` block. -/
theorem executeTryBlock_cases (env : ExecEnv) (store : Store) (postId : Nat)
    (post : ScheduledPost) :
    (∃ m, env.saveStartedError = some m
        ∧ executeTryBlock env store postId post = ⟨store, [], some m⟩)
    ∨ (env.saveStartedError = none ∧ ∃ calls m, calls.length ≤ 1
        ∧ executeTryBlock env store postId post =
          ⟨store.save postId
            { post with status := .publishing, executionStarted := some env.now }, calls, some m⟩)
    ∨ (env.saveStartedError = none ∧ env.savePublishedError = none ∧ ∃ call r,
        env.publish call = .ok r
        ∧ executeTryBlock env store postId post =
          ⟨(store.save postId
              { post with status := .publishing, executionStarted := some env.now }).save postId
              { post with
                status := .published
                executionStarted := some env.now
                publishedAt := some env.now
                platformPostId := some r.postId
                publishResult := some r }, [call], none⟩) := by
  unfold executeTryBlock
  cases h1 : env.saveStartedError with
  | some m => exact Or.inl ⟨m, rfl, rfl⟩
  | none =>
    right
    rcases callPublisher_cases env
        { post with status := .publishing, executionStarted := some env.now } with
      ⟨calls, m, hc, hp⟩ | ⟨call, r, hr, hp⟩
    · exact Or.inl ⟨rfl, calls, m, hc, by simp only [hp]⟩
    · cases h7 : env.savePublishedError with
      | some m => exact Or.inl ⟨rfl, [call], m, by simp, by simp only [hp, h7]⟩
      | none => exact Or.inr ⟨rfl, rfl, call, r, hr, by simp only [hp, h7]⟩

theorem executeCatchBlock_findById (env : ExecEnv) (store : Store) (postId : Nat)
    (message : String) (q : ScheduledPost) (h : store.findById postId = some q) :
    ∃ q2, (executeCatchBlock env store postId message).findById postId = some q2
      ∧ (q2 = q ∨ q2.status = .failed)
      ∧ (env.updateFailedError = none → q2.status = .failed) := by
  unfold executeCatchBlock
  cases hu : env.updateFailedError with
  | some m => exact ⟨q, h, Or.inl rfl, fun hc => by simp at hc⟩
  | none =>
    refine ⟨{ q with status := .failed }, ?_, Or.inr rfl, fun _ => rfl⟩
    simp [findById_update, h]

theorem executeScheduledPost_of_scheduled (env : ExecEnv) (store : Store) (postId : Nat)
    (post : ScheduledPost) (hfind : store.findById postId = some post)
    (hstatus : post.status = .scheduled) :
    executeScheduledPost env store postId =
      (match (executeTryBlock env store postId post).thrown with
       | none => ((executeTryBlock env store postId post).store,
                  (executeTryBlock env store postId post).calls)
       | some message =>
         (executeCatchBlock env (executeTryBlock env store postId post).store postId message,
          (executeTryBlock env store postId post).calls)) := by
  simp [executeScheduledPost, hfind, hstatus]

theorem executeScheduledPost_calls (env : ExecEnv) (store : Store) (postId : Nat) :
    (executeScheduledPost env store postId).2.length ≤ 1 := by
  cases hfind : store.findById postId with
  | none => simp [executeScheduledPost_of_missing env store postId hfind]
  | some post =>
    by_cases hstatus : post.status = .scheduled
    · rw [executeScheduledPost_of_scheduled env store postId post hfind hstatus]
      rcases executeTryBlock_cases env store postId post with
        ⟨m, _, ho⟩ | ⟨_, calls, m, hc, ho⟩ | ⟨_, _, call, r, _, ho⟩
      · rw [ho]; simp
      · rw [ho]; simpa using hc
      · rw [ho]; simp
    · simp [executeScheduledPost_of_not_scheduled env store postId post hfind hstatus]

/-- After a run on a scheduled post, unless the store rejected both the write of `publishing` and the update to `failed`, the stored status is
no longer `scheduled`. -/
theorem executeScheduledPost_leaves_scheduled (env : ExecEnv) (store : Store) (postId : Nat)
    (post : ScheduledPost) (hfind : store.findById postId = some post)
    (hstatus : post.status = .scheduled)
    (hwrite : env.saveStartedError = none ∨ env.updateFailedError = none) :
    ∃ q, (executeScheduledPost env store postId).1.findById postId = some q
      ∧ q.status ≠ .scheduled := by
  rw [executeScheduledPost_of_scheduled env store postId post hfind hstatus]
  rcases executeTryBlock_cases env store postId post with
    ⟨m, hm, ho⟩ | ⟨_, calls, m, _, ho⟩ | ⟨_, _, call, r, _, ho⟩
  · rw [ho]
    have hu : env.updateFailedError = none := by
      rcases hwrite with h | h
      · rw [hm] at h; exact absurd h (by simp)
      · exact h
    obtain ⟨q2, hq2, _, hfailed⟩ := executeCatchBlock_findById env store postId m post hfind
    exact ⟨q2, hq2, by rw [hfailed hu]; decide⟩
  · rw [ho]
    obtain ⟨q2, hq2, hor, _⟩ := executeCatchBlock_findById env _ postId m _
      (findById_save store postId
        { post with status := .publishing, executionStarted := some env.now } post hfind)
    refine ⟨q2, hq2, ?_⟩
    rcases hor with h | h
    · rw [h]; simp [ScheduledPost.persist]
    · rw [h]; simp
  · rw [ho]
    refine ⟨_, findById_save _ postId _ _
      (findById_save store postId
        { post with status := .publishing, executionStarted := some env.now } post hfind), ?_⟩
    simp [ScheduledPost.persist]

/-- For a document without the top-level `platform`, as every document written through the
schema is, no account is found on line 201 and line 207 throws. -/
theorem callPublisher_without_platform (env : ExecEnv) (started : ScheduledPost)
    (hplatform : started.platform = none) :
    ∃ m, callPublisher env started = ([], .error m) := by
  unfold callPublisher
  cases hu : List.lookup started.userId env.users with
  | none => exact ⟨_, rfl⟩
  | some user =>
    have hnone : (user.socialAccounts.bind fun accounts =>
        accounts.find? (fun account => decide (some account.platform = started.platform)))
        = none := by
      rw [hplatform]
      cases user.socialAccounts with
      | none => rfl
      | some accounts => simp
    simp only [hnone]
    exact ⟨_, rfl⟩

/-- A run on a scheduled post without the top-level `platform` calls no publisher, and when
the store accepts the update of the `catch` block the post ends `failed`. -/
theorem executeScheduledPost_without_platform (env : ExecEnv) (store : Store) (postId : Nat)
    (post : ScheduledPost) (hfind : store.findById postId = some post)
    (hstatus : post.status = .scheduled) (hplatform : post.platform = none) :
    (executeScheduledPost env store postId).2 = []
    ∧ (env.updateFailedError = none →
        ((executeScheduledPost env store postId).1.findById postId).map (fun p => p.status)
          = some .failed) := by
  rw [executeScheduledPost_of_scheduled env store postId post hfind hstatus]
  unfold executeTryBlock
  cases h1 : env.saveStartedError with
  | some m =>
    refine ⟨rfl, fun hu => ?_⟩
    simp [executeCatchBlock, hu, findById_update, hfind]
  | none =>
    obtain ⟨m, hm⟩ := callPublisher_without_platform env
      { post with status := .publishing, executionStarted := some env.now } hplatform
    simp only [hm]
    refine ⟨trivial, fun hu => ?_⟩
    simp [executeCatchBlock, hu, Store.save, findById_update, hfind]

/-- C1 (witness): published, failed and scheduled targets give `partially_published`. -/
theorem updateOverallStatus_status_witness :
    Example.mixedPost.platforms ≠ []
    ∧ (updateOverallStatus 5 Example.mixedPost).status = .partially_published :=
  ⟨by decide,
   ((updateOverallStatus_status 5 Example.mixedPost (by decide)).2
      (by
        rintro ⟨s, hs⟩
        have h1 := hs { platform := "instagram", accountId := 77, status := .published }
          (by decide)
        have h2 := hs { platform := "facebook", accountId := 78, status := .failed }
          (by decide)
        rw [← h1] at h2
        exact absurd h2 (by decide))).1
      ⟨⟨{ platform := "instagram", accountId := 77, status := .published }, by decide, rfl⟩,
       ⟨{ platform := "facebook", accountId := 78, status := .failed },
        by decide, rfl⟩⟩⟩

/-! ## C2, C3: what `executeScheduledPost` does to the targets -/

/-- `executeScheduledPost` never changes the `platforms` of the post it runs. -/
theorem executeScheduledPost_platforms (env : ExecEnv) (store : Store) (postId : Nat) :
    ((executeScheduledPost env store postId).1.findById postId).map (fun p => p.platforms) =
      (store.findById postId).map (fun p => p.platforms) := by
  cases hfind : store.findById postId with
  | none => rw [executeScheduledPost_of_missing env store postId hfind, hfind]
  | some post =>
    by_cases hstatus : post.status = .scheduled
    · rw [executeScheduledPost_of_scheduled env store postId post hfind hstatus]
      rcases executeTryBlock_cases env store postId post with
        ⟨m, _, ho⟩ | ⟨_, calls, m, _, ho⟩ | ⟨_, _, call, r, _, ho⟩
      · rw [ho]
        simp only [executeCatchBlock]
        cases env.updateFailedError <;> simp [findById_update, hfind]
      · rw [ho]
        simp only [executeCatchBlock]
        cases env.updateFailedError <;>
          simp [Store.save, ScheduledPost.persist, findById_update, hfind]
      · rw [ho]
        simp [Store.save, ScheduledPost.persist, findById_update, hfind]
    · rw [executeScheduledPost_of_not_scheduled env store postId post hfind hstatus, hfind]

/-- C2 (evaluation at the failing input).  A due post with status `scheduled` and the single
scheduled target Instagram, stored as the schema stores it, and a publisher that would
succeed.  `executeScheduledPost` calls no publisher: the document has no top-level `platform`
and the populated owner no `socialAccounts`, so no account is found and line 207 throws.  The
post ends `failed`, and its target is still `scheduled` with no `platformPostId`.  The entity
method `markPlatformAsPublished`, which the service never calls, makes the target `published`
with its `platformPostId` set and the post `published`. -/
theorem executeScheduledPost_single_target :
    (Example.singleTargetPost.status = .scheduled
      ∧ Example.singleTargetPost.platform = none
      ∧ Example.singleTargetPost.platforms.map (fun t => (t.platform, t.status))
          = [("instagram", .scheduled)])
    ∧ (executeScheduledPost Example.envPopulated [(1, Example.singleTargetPost)] 1).2 = []
    ∧ ((executeScheduledPost Example.envPopulated
          [(1, Example.singleTargetPost)] 1).1.findById 1).map
        (fun p => (p.status, p.platforms))
      = some (.failed,
          [{ platform := "instagram", accountId := 77, status := .scheduled,
             platformPostId := none }])
    ∧ ((markPlatformAsPublished 2000 "instagram" "remote-1" Example.singleTargetPost).status
          = .published
      ∧ (markPlatformAsPublished 2000 "instagram" "remote-1"
          Example.singleTargetPost).platforms.map
            (fun t => (t.platform, t.status, t.platformPostId))
          = [("instagram", .published, some "remote-1")]) := by
  decide

/-- C3 (evaluation at the failing input).  A due post with the scheduled targets Instagram and
Facebook, stored as the schema stores it, and a publisher that would succeed for Instagram and
throw for Facebook.  `executeScheduledPost` attempts neither target: it calls no publisher and
the post ends `failed`, not `partially_published`, with both targets still `scheduled` and no
error recorded on Facebook.  The entity methods `markPlatformAsPublished` and
`markPlatformAsFailed`, which the service never calls, give `partially_published` with
Instagram `published` and Facebook `failed` with its error recorded. -/
theorem executeScheduledPost_two_targets :
    (Example.twoTargetPost.status = .scheduled
      ∧ Example.twoTargetPost.platform = none
      ∧ Example.twoTargetPost.platforms.map (fun t => (t.platform, t.status))
          = [("instagram", .scheduled), ("facebook", .scheduled)])
    ∧ (executeScheduledPost Example.envPopulatedFacebookDown
        [(1, Example.twoTargetPost)] 1).2 = []
    ∧ ((executeScheduledPost Example.envPopulatedFacebookDown
          [(1, Example.twoTargetPost)] 1).1.findById 1).map
        (fun p => (p.status, p.platforms.map (fun t => (t.platform, t.status, t.error.isSome))))
      = some (.failed, [("instagram", .scheduled, false), ("facebook", .scheduled, false)])
    ∧ ((markPlatformAsFailed 2000 "facebook" { message := some "Facebook is unavailable" }
          (markPlatformAsPublished 2000 "instagram" "remote-1" Example.twoTargetPost)).status
          = .partially_published
      ∧ (markPlatformAsFailed 2000 "facebook" { message := some "Facebook is unavailable" }
          (markPlatformAsPublished 2000 "instagram" "remote-1"
            Example.twoTargetPost)).platforms.map
            (fun t => (t.platform, t.status, t.error.map (fun e => e.message)))
          = [("instagram", .published, none),
             ("facebook", .failed, some "Facebook is unavailable")]) := by
  decide

/-! ## C4: the guard of `executeScheduledPost` -/

/-- When the lookup is answered, `executeScheduledPost` for an id that is not in the store, or
whose stored status is not `scheduled`, makes no publisher call and returns the store
unchanged. -/
theorem executeScheduledPost_guard (env : ExecEnv) (store : Store) (postId : Nat)
    (h : store.findById postId = none
      ∨ ∃ post, store.findById postId = some post ∧ post.status ≠ .scheduled) :
    executeScheduledPost env store postId = (store, []) := by
  rcases h with h | ⟨post, hfind, hstatus⟩
  · exact executeScheduledPost_of_missing env store postId h
  · exact executeScheduledPost_of_not_scheduled env store postId post hfind hstatus

/-- Whatever the lookup does, `executeScheduledPost` for an id that is not in the store, or
whose stored status is not `scheduled`, makes no publisher call. -/
theorem executeScheduledPostFrom_no_call (lookupError : Option String) (env : ExecEnv)
    (store : Store) (postId : Nat)
    (h : store.findById postId = none
      ∨ ∃ post, store.findById postId = some post ∧ post.status ≠ .scheduled) :
    (executeScheduledPostFrom lookupError env store postId).2 = [] := by
  cases lookupError with
  | some message => rfl
  | none =>
    show (executeScheduledPost env store postId).2 = []
    rw [executeScheduledPost_guard env store postId h]

/-- C4 (evaluation at the failing input).  The post stored under id 1 is `published` and the
lookup of line 185 is rejected.  The rejection is caught on line 259 and the `catch` block
marks the post `failed`: no publisher call is made, but the stored post is changed.  The same
happens to a cancelled post.  With the lookup answered, the call leaves the store as it
is. -/
theorem executeScheduledPostFrom_lookup_rejected :
    (Store.findById [(1, Example.publishedPost)] 1).map (fun p => p.status) = some .published
    ∧ (executeScheduledPostFrom (some "connection lost") Example.envPopulated
        [(1, Example.publishedPost)] 1).2 = []
    ∧ ((executeScheduledPostFrom (some "connection lost") Example.envPopulated
          [(1, Example.publishedPost)] 1).1.findById 1).map (fun p => p.status)
        = some .failed
    ∧ ((executeScheduledPostFrom (some "connection lost") Example.envPopulated
          [(1, { Example.singleTargetPost with status := .cancelled })] 1).1.findById 1).map
          (fun p => p.status)
        = some .failed
    ∧ executeScheduledPostFrom none Example.envPopulated [(1, Example.publishedPost)] 1
        = ([(1, Example.publishedPost)], []) := by
  decide

/-! ## C5: two sequential runs -/

/-- C5.  Two sequential runs of `executeScheduledPost` on a scheduled post (the second in any
environment) call the publisher at most once in total.  For every outcome of the publisher
and of the follow-up status writes, provided the store did not reject both the write of
`publishing` and the update to `failed`, the stored status after the first run is no longer
`scheduled`, and the second run makes no publisher call and changes nothing. -/
theorem executeScheduledPost_twice (env1 env2 : ExecEnv) (store : Store) (postId : Nat)
    (post : ScheduledPost) (hfind : store.findById postId = some post)
    (hstatus : post.status = .scheduled) :
    ((executeScheduledPost env1 store postId).2
        ++ (executeScheduledPost env2 (executeScheduledPost env1 store postId).1 postId).2).length
      ≤ 1
    ∧ ((env1.saveStartedError = none ∨ env1.updateFailedError = none) →
        (∃ q, (executeScheduledPost env1 store postId).1.findById postId = some q
          ∧ q.status ≠ .scheduled)
        ∧ executeScheduledPost env2 (executeScheduledPost env1 store postId).1 postId
          = ((executeScheduledPost env1 store postId).1, [])) := by
  have hsecond : (env1.saveStartedError = none ∨ env1.updateFailedError = none) →
      (∃ q, (executeScheduledPost env1 store postId).1.findById postId = some q
          ∧ q.status ≠ .scheduled)
        ∧ executeScheduledPost env2 (executeScheduledPost env1 store postId).1 postId
          = ((executeScheduledPost env1 store postId).1, []) := by
    intro hwrite
    obtain ⟨q, hq, hqs⟩ :=
      executeScheduledPost_leaves_scheduled env1 store postId post hfind hstatus hwrite
    exact ⟨⟨q, hq, hqs⟩, executeScheduledPost_of_not_scheduled env2 _ postId q hq hqs⟩
  refine ⟨?_, hsecond⟩
  rw [List.length_append]
  by_cases hwrite : env1.saveStartedError = none ∨ env1.updateFailedError = none
  · rw [(hsecond hwrite).2]
    simpa using executeScheduledPost_calls env1 store postId
  · have hsave : ∃ m, env1.saveStartedError = some m := by
      cases h : env1.saveStartedError with
      | none => exact absurd (Or.inl h) hwrite
      | some m => exact ⟨m, rfl⟩
    obtain ⟨m, hm⟩ := hsave
    have hfirst : (executeScheduledPost env1 store postId).2 = [] := by
      rw [executeScheduledPost_of_scheduled env1 store postId post hfind hstatus]
      rcases executeTryBlock_cases env1 store postId post with
        ⟨m2, _, ho⟩ | ⟨hn, _⟩ | ⟨hn, _⟩
      · rw [ho]
      · rw [hm] at hn; exact absurd hn (by simp)
      · rw [hm] at hn; exact absurd hn (by simp)
    rw [hfirst]
    simpa using executeScheduledPost_calls env2 _ postId

/-- C5 (witness): a timer run followed by a sweep run on a due post whose publisher call
succeeds. -/
theorem executeScheduledPost_twice_witness :
    ((executeScheduledPost Example.env
          [(1, Example.singleTargetPostForInstagram)] 1).2
        ++ (executeScheduledPost Example.env
            (executeScheduledPost Example.env
              [(1, Example.singleTargetPostForInstagram)] 1).1 1).2).length
      ≤ 1
    ∧ executeScheduledPost Example.env
        (executeScheduledPost Example.env
          [(1, Example.singleTargetPostForInstagram)] 1).1 1
      = ((executeScheduledPost Example.env
          [(1, Example.singleTargetPostForInstagram)] 1).1, []) :=
  ⟨(executeScheduledPost_twice Example.env Example.env
      [(1, Example.singleTargetPostForInstagram)] 1
      Example.singleTargetPostForInstagram (by decide) (by decide)).1,
   ((executeScheduledPost_twice Example.env Example.env
      [(1, Example.singleTargetPostForInstagram)] 1
      Example.singleTargetPostForInstagram (by decide) (by decide)).2
      (Or.inl (by decide))).2⟩

/-! ## C7: `schedulePost` and a date that is not in the future -/

/-- C7.  When `scheduledDate` is at or before the instant read by `schedulePost`, the method
throws and the world is returned as it was: no post is saved, `activeTasks` and the pending
timers are unchanged, and no publisher call is made. -/
theorem schedulePost_rejects_past (now registerNow : Nat) (create : CreateEnv) (env : ExecEnv)
    (postData : PostData) (w : World) (scheduledTime : Nat)
    (hdate : postData.scheduledDate = some scheduledTime) (hpast : scheduledTime ≤ now) :
    schedulePost now registerNow create env postData w =
      (.error "Error programando publicación: La fecha programada debe ser en el futuro", w) := by
  simp [schedulePost, hdate, hpast]

/-- C7 (witness): a date equal to the current instant is rejected. -/
theorem schedulePost_rejects_past_witness :
    schedulePost 900000 900001 { newId := 2 } Example.env Example.futurePostData
        Example.worldWithTimer =
      (.error "Error programando publicación: La fecha programada debe ser en el futuro",
        Example.worldWithTimer) :=
  schedulePost_rejects_past 900000 900001 { newId := 2 } Example.env Example.futurePostData
    Example.worldWithTimer 900000 rfl (Nat.le_refl _)

/-! ## C8: empty and duplicate target lists -/

/-- The document that the service method builds has no `contentId` and fails validation. -/
theorem validationError_newScheduledPost (now : Nat) (postData : PostData) :
    ∃ m, validationError (newScheduledPost now postData) = some m := by
  simp [validationError, validationErrors, newScheduledPost]

/-- The document that the controller builds has no `contentId` and fails validation. -/
theorem validationError_newPost (req : PostController.ScheduleRequest) :
    ∃ m, validationError (PostController.newPost req) = some m := by
  simp [validationError, validationErrors, PostController.newPost]

/-- The service method throws for every argument and leaves the world as it was. -/
theorem schedulePost_throws (now registerNow : Nat) (create : CreateEnv) (env : ExecEnv)
    (postData : PostData) (w : World) :
    ∃ m, schedulePost now registerNow create env postData w = (.error m, w) := by
  obtain ⟨m, hm⟩ := validationError_newScheduledPost now postData
  simp only [schedulePost, CreateEnv.saveOutcome, hm]
  split
  · exact ⟨_, rfl⟩
  · exact ⟨_, rfl⟩

/-- The controller answers 400 or 500 to every request, without data, and leaves the store as
it was. -/
theorem controller_schedulePost_rejects (create : CreateEnv)
    (req : PostController.ScheduleRequest) (store : Store) :
    PostController.schedulePost create req store = ({ status := 400 }, store)
    ∨ PostController.schedulePost create req store = ({ status := 500 }, store) := by
  obtain ⟨m, hm⟩ := validationError_newPost req
  simp only [PostController.schedulePost, CreateEnv.saveOutcome, hm]
  split
  · exact Or.inl rfl
  · exact Or.inr rfl

/-- C8.  Scheduling a post whose target list is empty, or in which a platform name appears
twice, is rejected without persisting a post.  The controller answers such a request with
status 500 (400 when `content` or `publishAt` is missing), sends no post and leaves the store
as it was.  The service method takes no target list: the document it builds has an empty one,
and the method throws and leaves the world (posts, `activeTasks`, timers) as it was. -/
theorem schedulePost_rejects_bad_targets (create : CreateEnv)
    (req : PostController.ScheduleRequest) (store : Store) (platforms : List PlatformTarget)
    (now registerNow : Nat) (env : ExecEnv) (postData : PostData) (w : World)
    (hreq : req.platforms = some platforms)
    (hbad : platforms = [] ∨ ¬ (platforms.map (fun t => t.platform)).Nodup) :
    ((PostController.newPost req).platforms = platforms
      ∧ ((PostController.schedulePost create req store).1.status = 400
          ∨ (PostController.schedulePost create req store).1.status = 500)
      ∧ (PostController.schedulePost create req store).1.data = none
      ∧ (PostController.schedulePost create req store).2 = store
      ∧ (PostController.missing req.content = false →
          PostController.missing req.publishAt = false →
          (PostController.schedulePost create req store).1.status = 500))
    ∧ ((newScheduledPost now postData).platforms = []
      ∧ (∃ m, (schedulePost now registerNow create env postData w).1 = .error m)
      ∧ (schedulePost now registerNow create env postData w).2 = w) := by
  obtain ⟨m, hm⟩ := validationError_newPost req
  obtain ⟨m2, hm2⟩ := schedulePost_throws now registerNow create env postData w
  have hstatus : PostController.missing req.content = false →
      PostController.missing req.publishAt = false →
      (PostController.schedulePost create req store).1.status = 500 := by
    intro hc hd
    simp [PostController.schedulePost, hc, hd, hreq, CreateEnv.saveOutcome, hm]
  have hplatforms : (PostController.newPost req).platforms = platforms := by
    simp [PostController.newPost, hreq]
  rw [hm2]
  rcases hbad with _ | _ <;>
    rcases controller_schedulePost_rejects create req store with h | h <;>
    · rw [h] at hstatus ⊢
      exact ⟨⟨hplatforms, by simp, rfl, rfl, hstatus⟩, rfl, ⟨m2, rfl⟩, rfl⟩

/-- C8 (witness): the request with an empty `platforms` array and the request that names
Instagram twice are answered 500 and the store stays empty; the service method throws and
leaves the world as it was. -/
theorem schedulePost_rejects_bad_targets_witness :
    ((PostController.schedulePost { newId := 1 } Example.emptyTargetsRequest []).1.status = 500
      ∧ (PostController.schedulePost { newId := 1 } Example.emptyTargetsRequest []).2 = [])
    ∧ ((PostController.schedulePost { newId := 1 } Example.duplicateTargetsRequest []).1.status
          = 500
      ∧ (PostController.schedulePost { newId := 1 } Example.duplicateTargetsRequest []).2 = [])
    ∧ (schedulePost 1000 1001 { newId := 1 } Example.envPopulated Example.futurePostData
        Example.worldWithTimer).2 = Example.worldWithTimer :=
  ⟨⟨(schedulePost_rejects_bad_targets { newId := 1 } Example.emptyTargetsRequest [] []
        1000 1001 Example.envPopulated Example.futurePostData Example.worldWithTimer rfl
        (Or.inl rfl)).1.2.2.2.2 (by decide) (by decide),
     (schedulePost_rejects_bad_targets { newId := 1 } Example.emptyTargetsRequest [] []
        1000 1001 Example.envPopulated Example.futurePostData Example.worldWithTimer rfl
        (Or.inl rfl)).1.2.2.2.1⟩,
   ⟨(schedulePost_rejects_bad_targets { newId := 1 } Example.duplicateTargetsRequest []
        [{ platform := "instagram", accountId := 77 },
         { platform := "instagram", accountId := 77 }]
        1000 1001 Example.envPopulated Example.futurePostData Example.worldWithTimer rfl
        (Or.inr (by decide))).1.2.2.2.2 (by decide) (by decide),
    (schedulePost_rejects_bad_targets { newId := 1 } Example.duplicateTargetsRequest []
        [{ platform := "instagram", accountId := 77 },
         { platform := "instagram", accountId := 77 }]
        1000 1001 Example.envPopulated Example.futurePostData Example.worldWithTimer rfl
        (Or.inr (by decide))).1.2.2.2.1⟩,
   (schedulePost_rejects_bad_targets { newId := 1 } Example.emptyTargetsRequest [] []
        1000 1001 Example.envPopulated Example.futurePostData Example.worldWithTimer rfl
        (Or.inl rfl)).2.2.2⟩

/-! ## C9, C10: `cancelScheduledPost` -/

theorem has_delete (tasks : TaskMap) (key : TaskKey) : (tasks.delete key).has key = false := by
  simp [TaskMap.has, TaskMap.delete]

/-- The three ways `cancelScheduledPost` ends. -/
theorem cancelScheduledPost_cases (now : Nat) (saveError : Option String) (w : World)
    (postId : Nat) :
    ((w.store.findById postId = none
        ∨ ∃ post, w.store.findById postId = some post ∧ post.status ≠ .scheduled)
      ∧ (∃ m, (cancelScheduledPost now saveError w postId).1 = .error m)
      ∧ (cancelScheduledPost now saveError w postId).2 = w)
    ∨ (∃ post m, w.store.findById postId = some post ∧ post.status = .scheduled
      ∧ saveError = some m
      ∧ (cancelScheduledPost now saveError w postId).1
          = .error ("Error cancelando publicación: " ++ m)
      ∧ (cancelScheduledPost now saveError w postId).2.store = w.store
      ∧ (cancelScheduledPost now saveError w postId).2.activeTasks
          = w.activeTasks.delete (.post postId))
    ∨ (∃ post, w.store.findById postId = some post ∧ post.status = .scheduled
      ∧ saveError = none
      ∧ (cancelScheduledPost now saveError w postId).1
          = .ok { post with status := .cancelled, cancelledAt := some now }
      ∧ (cancelScheduledPost now saveError w postId).2.store
          = w.store.save postId { post with status := .cancelled, cancelledAt := some now }
      ∧ (cancelScheduledPost now saveError w postId).2.activeTasks
          = w.activeTasks.delete (.post postId)) := by
  have hdelete : ∀ tasks : TaskMap, tasks.has (.post postId) = false →
      tasks = tasks.delete (.post postId) := by
    intro tasks h
    simp only [TaskMap.has, List.any_eq_false, decide_eq_true_eq] at h
    simp only [TaskMap.delete]
    rw [List.filter_eq_self.2]
    intro e he
    simpa using h e he
  unfold cancelScheduledPost
  cases hfind : w.store.findById postId with
  | none => exact Or.inl ⟨Or.inl rfl, ⟨_, rfl⟩, rfl⟩
  | some post =>
    by_cases hstatus : post.status = .scheduled
    · right
      cases hsave : saveError with
      | some m =>
        left
        refine ⟨post, m, rfl, hstatus, rfl, ?_, ?_, ?_⟩
        · simp [hstatus]
        · by_cases hhas : w.activeTasks.has (.post postId) = true <;> simp [hstatus, hhas]
        · by_cases hhas : w.activeTasks.has (.post postId) = true
          · simp [hstatus, hhas]
          · simp only [hstatus, hhas]
            exact hdelete _ (by simpa using hhas)
      | none =>
        right
        refine ⟨post, rfl, hstatus, rfl, ?_, ?_, ?_⟩
        · simp [hstatus]
        · by_cases hhas : w.activeTasks.has (.post postId) = true <;> simp [hstatus, hhas]
        · by_cases hhas : w.activeTasks.has (.post postId) = true
          · simp [hstatus, hhas]
          · simp only [hstatus, hhas]
            exact hdelete _ (by simpa using hhas)
    · refine Or.inl ⟨Or.inr ⟨post, rfl, hstatus⟩, ?_, by simp [hstatus]⟩
      simp only [ne_eq, hstatus, not_false_eq_true, if_true]
      exact ⟨_, rfl⟩

/-- C9 (counterexample).  The post under id 1 exists with status `scheduled` and its timer is
registered.  When the store rejects the write, `cancelScheduledPost` throws although the post
exists and is scheduled, and the key of the post has been removed from `activeTasks`.  When
the lookup is rejected it throws as well.  When it succeeds, the returned document carries
`cancelledAt` but the stored post does not. -/
theorem cancelScheduledPost_store_rejects :
    ((Example.worldWithTimer.store.findById 1).map (fun p => p.status) = some .scheduled
      ∧ Example.worldWithTimer.activeTasks.has (.post 1) = true)
    ∧ ((∃ m, (cancelScheduledPostFrom none 2000 (some "store unavailable")
          Example.worldWithTimer 1).1 = .error m)
      ∧ (cancelScheduledPostFrom none 2000 (some "store unavailable")
          Example.worldWithTimer 1).2.activeTasks.has (.post 1) = false
      ∧ (cancelScheduledPostFrom none 2000 (some "store unavailable")
          Example.worldWithTimer 1).2.store = Example.worldWithTimer.store)
    ∧ (∃ m, (cancelScheduledPostFrom (some "connection lost") 2000 none
          Example.worldWithTimer 1).1 = .error m)
    ∧ ((cancelScheduledPostFrom none 2000 none Example.worldWithTimer 1).1.toOption.map
          (fun p => (p.status, p.cancelledAt)) = some (.cancelled, some 2000)
      ∧ ((cancelScheduledPostFrom none 2000 none Example.worldWithTimer 1).2.store.findById
          1).map (fun p => (p.status, p.cancelledAt)) = some (.cancelled, none)) :=
  ⟨by decide, ⟨⟨_, rfl⟩, by decide, by decide⟩, ⟨_, rfl⟩, by decide⟩

/-- C9 (amended).  `cancelScheduledPost(postId)` throws if and only if the lookup is rejected,
no post with that id exists, the post's status is not `scheduled`, or the store rejects the
write of the cancelled post.  When it throws for one of the first three reasons the world
(posts, `activeTasks`, timers) is unchanged; whenever it throws the stored posts are
unchanged.  When it succeeds the returned document has status `cancelled` and `cancelledAt`
set to the current instant, the stored post is the post as it was with status `cancelled`,
and the key of the post is absent from `activeTasks`. -/
theorem cancelScheduledPost_spec (lookupError : Option String) (now : Nat)
    (saveError : Option String) (w : World) (postId : Nat) :
    ((∃ m, (cancelScheduledPostFrom lookupError now saveError w postId).1 = .error m) ↔
      (lookupError ≠ none
        ∨ w.store.findById postId = none
        ∨ (∃ post, w.store.findById postId = some post ∧ post.status ≠ .scheduled)
        ∨ saveError ≠ none))
    ∧ ((lookupError ≠ none
          ∨ w.store.findById postId = none
          ∨ ∃ post, w.store.findById postId = some post ∧ post.status ≠ .scheduled) →
        (cancelScheduledPostFrom lookupError now saveError w postId).2 = w)
    ∧ ((∃ m, (cancelScheduledPostFrom lookupError now saveError w postId).1 = .error m) →
        (cancelScheduledPostFrom lookupError now saveError w postId).2.store = w.store)
    ∧ (∀ doc, (cancelScheduledPostFrom lookupError now saveError w postId).1 = .ok doc →
        doc.status = .cancelled ∧ doc.cancelledAt = some now
        ∧ (∃ post, w.store.findById postId = some post
            ∧ (cancelScheduledPostFrom lookupError now saveError w postId).2.store.findById
                postId = some { post with status := .cancelled })
        ∧ (cancelScheduledPostFrom lookupError now saveError w postId).2.activeTasks.has
            (.post postId) = false) := by
  cases lookupError with
  | some message =>
    refine ⟨⟨fun _ => Or.inl (by simp), fun _ => ⟨_, rfl⟩⟩, fun _ => rfl, fun _ => rfl, ?_⟩
    intro doc hdoc
    simp [cancelScheduledPostFrom] at hdoc
  | none =>
    show ((∃ m, (cancelScheduledPost now saveError w postId).1 = .error m) ↔ _)
      ∧ (_ → (cancelScheduledPost now saveError w postId).2 = w)
      ∧ ((∃ m, (cancelScheduledPost now saveError w postId).1 = .error m) →
          (cancelScheduledPost now saveError w postId).2.store = w.store)
      ∧ (∀ doc, (cancelScheduledPost now saveError w postId).1 = .ok doc →
          doc.status = .cancelled ∧ doc.cancelledAt = some now
          ∧ (∃ post, w.store.findById postId = some post
              ∧ (cancelScheduledPost now saveError w postId).2.store.findById postId
                  = some { post with status := .cancelled })
          ∧ (cancelScheduledPost now saveError w postId).2.activeTasks.has (.post postId)
              = false)
    rcases cancelScheduledPost_cases now saveError w postId with
      ⟨hguard, ⟨m, hm⟩, hw⟩ | ⟨post, m, hfind, hstatus, hsave, hr, hs, _⟩
        | ⟨post, hfind, hstatus, hsave, hr, hs, ht⟩
    · refine ⟨⟨fun _ => Or.inr ?_, fun _ => ⟨m, hm⟩⟩, fun _ => hw, fun _ => by rw [hw], ?_⟩
      · rcases hguard with h | h
        · exact Or.inl h
        · exact Or.inr (Or.inl h)
      · intro doc hdoc
        rw [hm] at hdoc
        exact absurd hdoc (by simp)
    · refine ⟨⟨fun _ => Or.inr (Or.inr (Or.inr (by simp [hsave]))), fun _ => ⟨_, hr⟩⟩, ?_,
        fun _ => hs, ?_⟩
      · rintro (h | h | ⟨p, hp, hps⟩)
        · exact absurd rfl h
        · rw [hfind] at h; exact absurd h (by simp)
        · rw [hfind] at hp
          cases hp
          exact absurd hstatus hps
      · intro doc hdoc
        rw [hr] at hdoc
        exact absurd hdoc (by simp)
    · refine ⟨⟨?_, ?_⟩, ?_, ?_, ?_⟩
      · rintro ⟨m, hm⟩
        rw [hr] at hm
        exact absurd hm (by simp)
      · rintro (h | h | ⟨p, hp, hps⟩ | h)
        · exact absurd rfl h
        · rw [hfind] at h; exact absurd h (by simp)
        · rw [hfind] at hp
          cases hp
          exact absurd hstatus hps
        · exact absurd hsave h
      · rintro (h | h | ⟨p, hp, hps⟩)
        · exact absurd rfl h
        · rw [hfind] at h; exact absurd h (by simp)
        · rw [hfind] at hp
          cases hp
          exact absurd hstatus hps
      · rintro ⟨m, hm⟩
        rw [hr] at hm
        exact absurd hm (by simp)
      · intro doc hdoc
        rw [hr] at hdoc
        cases hdoc
        refine ⟨rfl, rfl, ⟨post, hfind, ?_⟩, ?_⟩
        · rw [hs, findById_save _ _ _ _ hfind]
          rfl
        · rw [ht]
          exact has_delete _ _

/-- C9 (witness): cancelling the scheduled post of `Example.worldWithTimer` with an answered
lookup and an accepting store leaves the stored post `cancelled`, without `cancelledAt`, and
removes its key. -/
theorem cancelScheduledPost_spec_witness :
    ((cancelScheduledPostFrom none 2000 none Example.worldWithTimer 1).2.store.findById 1).map
        (fun p => (p.status, p.cancelledAt)) = some (.cancelled, none)
    ∧ (cancelScheduledPostFrom none 2000 none Example.worldWithTimer 1).2.activeTasks.has
        (.post 1) = false := by
  have h := (cancelScheduledPost_spec none 2000 none Example.worldWithTimer 1).2.2.2
    { Example.futurePost with status := .cancelled, cancelledAt := some 2000 } rfl
  obtain ⟨post, hpost, hstored⟩ := h.2.2.1
  have hfuture : post = Example.futurePost := by
    have : Example.worldWithTimer.store.findById 1 = some Example.futurePost := by decide
    rw [this] at hpost
    exact (Option.some.inj hpost).symm
  subst hfuture
  exact ⟨by rw [hstored]; rfl, h.2.2.2⟩

/-- C10 (evaluation at the failing input).  A post scheduled in the future whose single target
is `scheduled` is cancelled successfully through `cancelScheduledPost`: the post becomes
`cancelled` but its target is still `scheduled`.  The entity operation `cancel` on the same
post sets the target to `cancelled`. -/
theorem cancelScheduledPost_leaves_targets :
    (Example.worldWithTimer.store.findById 1).map
        (fun p => (p.status, p.scheduledDate, p.platforms.map (fun t => t.status)))
      = some (.scheduled, some 900000, [.scheduled])
    ∧ ((cancelScheduledPost 2000 none Example.worldWithTimer 1).1.toOption.map
        (fun p => (p.status, p.platforms.map (fun t => t.status)))
      = some (.cancelled, [.scheduled]))
    ∧ ((cancelScheduledPost 2000 none Example.worldWithTimer 1).2.store.findById 1).map
        (fun p => (p.status, p.platforms.map (fun t => t.status)))
      = some (.cancelled, [.scheduled])
    ∧ (cancel 2000 Example.futurePost).platforms.map (fun t => t.status) = [.cancelled] := by
  decide

/-! ## C6: two concurrent invocations -/

/-- The segments of one invocation, run without interleaving, are `executeScheduledPost`. -/
theorem runAlone_eq (env : ExecEnv) (store : Store) (postId : Nat) :
    runAlone env store postId = (.finished, executeScheduledPost env store postId) := by
  unfold runAlone executeScheduledPost
  cases hfind : store.findById postId with
  | none => simp [execStep, hfind]
  | some post =>
    by_cases hstatus : post.status = .scheduled
    · unfold executeTryBlock
      cases h1 : env.saveStartedError with
      | some m => simp [execStep, hfind, hstatus, h1]
      | none =>
        cases hp : callPublisher env
            { post with status := .publishing, executionStarted := some env.now } with
        | mk calls answer =>
          cases answer with
          | error m => simp [execStep, hfind, hstatus, h1, hp]
          | ok r =>
            cases h7 : env.savePublishedError with
            | some m => simp [execStep, hfind, hstatus, h1, hp, h7]
            | none => simp [execStep, hfind, hstatus, h1, hp, h7]
    · simp [execStep, hfind, hstatus]

/-- C6 (evaluation at the failing input).  The timer and the sweep both call
`executeScheduledPost(1)` for the due post, stored as the schema stores it, and both lookups
are answered before either invocation writes.  After the three segments timer, sweep, timer
the timer invocation has passed the guard and written `publishing`, while the sweep
invocation still holds the document it read with status `scheduled`.  After the fourth
segment the sweep invocation has passed the guard too and has written `publishing` again.
Run to the end, both invocations have gone through the body of the method; each fails at the
account lookup, neither calls a publisher, and the post ends `failed`. -/
theorem runSchedule_both_pass_guard :
    Example.singleTargetPost.status = .scheduled
    ∧ ((runSchedule Example.envPopulated Example.envPopulated 1 [.timer, .sweep, .timer]
          { store := [(1, Example.singleTargetPost)] }).timerPhase
        = .saved { Example.singleTargetPost with
                   status := .publishing, executionStarted := some 2000 }
      ∧ (runSchedule Example.envPopulated Example.envPopulated 1 [.timer, .sweep, .timer]
          { store := [(1, Example.singleTargetPost)] }).sweepPhase
        = .loaded (some Example.singleTargetPost)
      ∧ ((runSchedule Example.envPopulated Example.envPopulated 1 [.timer, .sweep, .timer]
          { store := [(1, Example.singleTargetPost)] }).store.findById 1).map
            (fun p => p.status) = some .publishing)
    ∧ ((runSchedule Example.envPopulated Example.envPopulated 1
          [.timer, .sweep, .timer, .sweep]
          { store := [(1, Example.singleTargetPost)] }).timerPhase
        = .saved { Example.singleTargetPost with
                   status := .publishing, executionStarted := some 2000 }
      ∧ (runSchedule Example.envPopulated Example.envPopulated 1
          [.timer, .sweep, .timer, .sweep]
          { store := [(1, Example.singleTargetPost)] }).sweepPhase
        = .saved { Example.singleTargetPost with
                   status := .publishing, executionStarted := some 2000 }
      ∧ ((runSchedule Example.envPopulated Example.envPopulated 1
          [.timer, .sweep, .timer, .sweep]
          { store := [(1, Example.singleTargetPost)] }).store.findById 1).map
            (fun p => p.status) = some .publishing)
    ∧ ((runSchedule Example.envPopulated Example.envPopulated 1
          [.timer, .sweep, .timer, .sweep, .timer, .sweep, .timer, .sweep]
          { store := [(1, Example.singleTargetPost)] }).timerPhase = .finished
      ∧ (runSchedule Example.envPopulated Example.envPopulated 1
          [.timer, .sweep, .timer, .sweep, .timer, .sweep, .timer, .sweep]
          { store := [(1, Example.singleTargetPost)] }).sweepPhase = .finished
      ∧ (runSchedule Example.envPopulated Example.envPopulated 1
          [.timer, .sweep, .timer, .sweep, .timer, .sweep, .timer, .sweep]
          { store := [(1, Example.singleTargetPost)] }).calls = []
      ∧ ((runSchedule Example.envPopulated Example.envPopulated 1
          [.timer, .sweep, .timer, .sweep, .timer, .sweep, .timer, .sweep]
          { store := [(1, Example.singleTargetPost)] }).store.findById 1).map
            (fun p => p.status) = some .failed) := by
  decide

/-! ## Facts about the entity operations -/

theorem findIndex_append {α : Type} (test : α → Bool) (pre : List α) (t : α) (suf : List α)
    (hpre : ∀ u ∈ pre, test u = false) (ht : test t = true) :
    findIndex test (pre ++ t :: suf) = some pre.length := by
  induction pre with
  | nil => simp [findIndex, ht]
  | cons x xs ih =>
    have hx : test x = false := hpre x (List.mem_cons_self x xs)
    have hxs : ∀ u ∈ xs, test u = false := fun u hu => hpre u (List.mem_cons_of_mem x hu)
    simp [findIndex, hx, ih hxs]

theorem modifyAt_append {α : Type} (change : α → α) (pre : List α) (t : α) (suf : List α) :
    modifyAt change pre.length (pre ++ t :: suf) = pre ++ change t :: suf := by
  induction pre with
  | nil => rfl
  | cons x xs ih => simp [modifyAt, ih]

theorem findIndex_eq_none {α : Type} (test : α → Bool) (l : List α) :
    findIndex test l = none ↔ ∀ x ∈ l, test x = false := by
  induction l with
  | nil => simp [findIndex]
  | cons x xs ih =>
    by_cases hx : test x = true
    · simp [findIndex, hx]
    · have hx2 : test x = false := by simpa using hx
      simp [findIndex, hx2, ih]

theorem findIndex_eq_some {α : Type} (test : α → Bool) (l : List α) (i : Nat)
    (h : findIndex test l = some i) :
    ∃ pre t suf, l = pre ++ t :: suf ∧ pre.length = i ∧ (∀ u ∈ pre, test u = false)
      ∧ test t = true := by
  induction l generalizing i with
  | nil => simp [findIndex] at h
  | cons x xs ih =>
    by_cases hx : test x = true
    · simp only [findIndex, hx, if_true, Option.some.injEq] at h
      exact ⟨[], x, xs, rfl, by simpa using h, by simp, hx⟩
    · have hx2 : test x = false := by simpa using hx
      simp only [findIndex, hx2, Bool.false_eq_true, if_false, Option.map_eq_some'] at h
      obtain ⟨j, hj, hji⟩ := h
      obtain ⟨pre, t, suf, hl, hlen, hpre, ht⟩ := ih j hj
      refine ⟨x :: pre, t, suf, by simp [hl], by simp [hlen, hji], ?_, ht⟩
      intro u hu
      rcases List.mem_cons.1 hu with h1 | h1
      · rw [h1]; exact hx2
      · exact hpre u h1

/-- What `cancel` writes, field by field. -/
theorem cancel_fields (now : Nat) (post : ScheduledPost) (reason : String) :
    (cancel now post reason).status = .cancelled
    ∧ (cancel now post reason).platforms = post.platforms.map (fun platform =>
        if platform.status = .scheduled then { platform with status := .cancelled }
        else platform)
    ∧ (cancel now post reason).executionLogs = post.executionLogs ++
        [{ action := .cancelled, message := reason, timestamp := now }]
    ∧ (cancel now post reason).completedAt = post.completedAt
    ∧ (cancel now post reason).retryConfig = post.retryConfig :=
  ⟨rfl, rfl, rfl, rfl, rfl⟩

/-! ## C11: `cancel` on a terminal post -/

/-- C11 (counterexample).  `cancel` applied to a published post whose target is published
turns the post's status into `cancelled`; applied to a failed post whose target is still
`scheduled` it also turns that target into `cancelled`. -/
theorem cancel_changes_terminal_post :
    (Example.publishedPost.status = .published
      ∧ (cancel 3000 Example.publishedPost).status = .cancelled)
    ∧ (Example.failedPost.status = .failed
      ∧ Example.failedPost.platforms.map (fun t => t.status) = [.scheduled]
      ∧ (cancel 3000 Example.failedPost).status = .cancelled
      ∧ (cancel 3000 Example.failedPost).platforms.map (fun t => t.status) = [.cancelled]) := by
  decide

/-- C11 (amended).  `cancel(reason)` has no guard on the status: applied to any post, a
terminal one (status published, failed or cancelled) included, it sets the status to
`cancelled`, changes the status of exactly the targets that were `scheduled` (to `cancelled`)
and leaves every other target as it was, so a post without scheduled targets keeps its target
list; the execution log grows by exactly one entry, with action `cancelled` and the reason as
message. -/
theorem cancel_unguarded (now : Nat) (post : ScheduledPost) (reason : String) :
    (cancel now post reason).status = .cancelled
    ∧ (cancel now post reason).platforms.map (fun t => t.status) =
        post.platforms.map (fun t => if t.status = .scheduled then .cancelled else t.status)
    ∧ ((∀ t ∈ post.platforms, t.status ≠ .scheduled) →
        (cancel now post reason).platforms = post.platforms)
    ∧ (cancel now post reason).executionLogs = post.executionLogs ++
        [{ action := .cancelled, message := reason, timestamp := now }] := by
  obtain ⟨hs, hp, hl, _, _⟩ := cancel_fields now post reason
  refine ⟨hs, ?_, ?_, hl⟩
  · rw [hp, List.map_map]
    apply List.map_congr_left
    intro t _
    by_cases h : t.status = .scheduled <;> simp [h]
  · intro hnone
    rw [hp]
    conv_rhs => rw [← List.map_id post.platforms]
    apply List.map_congr_left
    intro t ht
    simp [hnone t ht]

/-- C11 (witness): the published post keeps its target and gets one log entry, and its status
becomes `cancelled`. -/
theorem cancel_unguarded_witness :
    Example.publishedPost.status = .published
    ∧ (cancel 3000 Example.publishedPost "late").status = .cancelled
    ∧ (cancel 3000 Example.publishedPost "late").platforms = Example.publishedPost.platforms
    ∧ (cancel 3000 Example.publishedPost "late").executionLogs =
        [{ action := .cancelled, message := "late", timestamp := 3000 }] :=
  ⟨rfl, (cancel_unguarded 3000 Example.publishedPost "late").1,
   (cancel_unguarded 3000 Example.publishedPost "late").2.2.1 (by decide),
   (cancel_unguarded 3000 Example.publishedPost "late").2.2.2⟩

/-! ## C12 - C16: `scheduleRetry` -/

/-- When the retry limit is not reached, `scheduleRetry` grants the retry. -/
theorem scheduleRetry_granted (now : Nat) (post : ScheduledPost)
    (h : post.retryConfig.currentRetries < post.retryConfig.maxRetries) :
    scheduleRetry now post =
      { post with
        retryConfig :=
          { post.retryConfig with
            currentRetries := post.retryConfig.currentRetries + 1
            nextRetryAt := some ((now : Int) + post.retryConfig.retryInterval) }
        status := .scheduled
        executionLogs := post.executionLogs ++
          [{ action := .retrying,
             message := "Scheduled retry " ++ jsNumber (post.retryConfig.currentRetries + 1)
               ++ "/" ++ jsNumber post.retryConfig.maxRetries,
             timestamp := now }] } := by
  simp [scheduleRetry, h]

/-- When the retry limit is reached, `scheduleRetry` returns the post as it is. -/
theorem scheduleRetry_refused (now : Nat) (post : ScheduledPost)
    (h : ¬ post.retryConfig.currentRetries < post.retryConfig.maxRetries) :
    scheduleRetry now post = post := by
  simp [scheduleRetry, h]

/-- `scheduleRetry` never changes the target list. -/
theorem scheduleRetry_platforms (now : Nat) (post : ScheduledPost) :
    (scheduleRetry now post).platforms = post.platforms := by
  by_cases h : post.retryConfig.currentRetries < post.retryConfig.maxRetries
  · rw [scheduleRetry_granted now post h]
  · rw [scheduleRetry_refused now post h]

/-- One call keeps the limit, does not lower the counter and keeps it below the limit plus
one. -/
theorem scheduleRetry_counter (now : Nat) (post : ScheduledPost)
    (h : post.retryConfig.currentRetries < post.retryConfig.maxRetries + 1) :
    (scheduleRetry now post).retryConfig.maxRetries = post.retryConfig.maxRetries
    ∧ post.retryConfig.currentRetries ≤ (scheduleRetry now post).retryConfig.currentRetries
    ∧ (scheduleRetry now post).retryConfig.currentRetries < post.retryConfig.maxRetries + 1 := by
  by_cases hlt : post.retryConfig.currentRetries < post.retryConfig.maxRetries
  · rw [scheduleRetry_granted now post hlt]
    refine ⟨rfl, ?_, ?_⟩
    · show post.retryConfig.currentRetries ≤ post.retryConfig.currentRetries + 1
      linarith
    · show post.retryConfig.currentRetries + 1 < post.retryConfig.maxRetries + 1
      linarith
  · rw [scheduleRetry_refused now post hlt]
    exact ⟨rfl, le_refl _, h⟩

/-- One call on integer counters within the limit leaves integer counters within the limit. -/
theorem scheduleRetry_counter_int (now : Nat) (post : ScheduledPost) (c m : Int)
    (hc : post.retryConfig.currentRetries = c) (hm : post.retryConfig.maxRetries = m)
    (hle : c ≤ m) :
    ∃ c2 : Int, (scheduleRetry now post).retryConfig.currentRetries = c2
      ∧ (scheduleRetry now post).retryConfig.maxRetries = m ∧ c2 ≤ m := by
  by_cases hlt : post.retryConfig.currentRetries < post.retryConfig.maxRetries
  · rw [scheduleRetry_granted now post hlt]
    have hcm : c < m := by
      rw [hc, hm] at hlt
      exact_mod_cast hlt
    refine ⟨c + 1, ?_, hm, by omega⟩
    show post.retryConfig.currentRetries + 1 = ((c + 1 : Int) : ℚ)
    rw [hc]
    push_cast
    rfl
  · rw [scheduleRetry_refused now post hlt]
    exact ⟨c, hc, hm, hle⟩

/-- A sequence of calls keeps the limit and keeps the counter from 0 to below the limit plus
one. -/
theorem scheduleRetries_counter (instants : List Nat) (post : ScheduledPost)
    (h0 : 0 ≤ post.retryConfig.currentRetries)
    (h : post.retryConfig.currentRetries < post.retryConfig.maxRetries + 1) :
    (scheduleRetries instants post).retryConfig.maxRetries = post.retryConfig.maxRetries
    ∧ 0 ≤ (scheduleRetries instants post).retryConfig.currentRetries
    ∧ (scheduleRetries instants post).retryConfig.currentRetries
        < post.retryConfig.maxRetries + 1 := by
  induction instants generalizing post with
  | nil => exact ⟨rfl, h0, h⟩
  | cons now rest ih =>
    obtain ⟨hmax, hlow, hhigh⟩ := scheduleRetry_counter now post h
    have := ih (scheduleRetry now post) (le_trans h0 hlow) (by rw [hmax]; exact hhigh)
    simp only [scheduleRetries, List.foldl_cons] at this ⊢
    rw [hmax] at this
    exact this

/-- A sequence of calls on integer counters within the limit keeps the counter within the
limit. -/
theorem scheduleRetries_counter_int (instants : List Nat) (post : ScheduledPost) (c m : Int)
    (hc : post.retryConfig.currentRetries = c) (hm : post.retryConfig.maxRetries = m)
    (hle : c ≤ m) :
    (scheduleRetries instants post).retryConfig.currentRetries
      ≤ (scheduleRetries instants post).retryConfig.maxRetries := by
  induction instants generalizing post c with
  | nil =>
    show post.retryConfig.currentRetries ≤ post.retryConfig.maxRetries
    rw [hc, hm]
    exact_mod_cast hle
  | cons now rest ih =>
    obtain ⟨c2, hc2, hm2, hle2⟩ := scheduleRetry_counter_int now post c m hc hm hle
    have := ih (scheduleRetry now post) c2 hc2 hm2 hle2
    simp only [scheduleRetries, List.foldl_cons] at this ⊢
    exact this

/-- C12 (counterexample).  A post with `currentRetries = 2` and `maxRetries = 2.5` satisfies
`0 ≤ currentRetries ≤ maxRetries`; one `scheduleRetry` makes `currentRetries` 3, above the
limit, which is still 2.5. -/
theorem scheduleRetry_exceeds_fractional_limit :
    (0 ≤ Example.fractionalLimitPost.retryConfig.currentRetries
      ∧ Example.fractionalLimitPost.retryConfig.currentRetries
          ≤ Example.fractionalLimitPost.retryConfig.maxRetries)
    ∧ (scheduleRetry 3000 Example.fractionalLimitPost).retryConfig.currentRetries = 3
    ∧ (scheduleRetry 3000 Example.fractionalLimitPost).retryConfig.maxRetries = 5 / 2
    ∧ ¬ (scheduleRetry 3000 Example.fractionalLimitPost).retryConfig.currentRetries
        ≤ (scheduleRetry 3000 Example.fractionalLimitPost).retryConfig.maxRetries := by
  norm_num [scheduleRetry, Example.fractionalLimitPost, Example.allFailedPost]

/-- C12 (amended).  For every post with `0 ≤ currentRetries ≤ maxRetries`, after any finite
sequence of `scheduleRetry` calls `maxRetries` is what it was and
`0 ≤ currentRetries < maxRetries + 1` holds; when the two counters are integers,
`currentRetries ≤ maxRetries` still holds; and when `currentRetries ≥ maxRetries` (in
particular when they are equal) a further `scheduleRetry` returns the post unchanged in every
field. -/
theorem scheduleRetry_bound (instants : List Nat) (post : ScheduledPost)
    (h0 : 0 ≤ post.retryConfig.currentRetries)
    (hle : post.retryConfig.currentRetries ≤ post.retryConfig.maxRetries) :
    ((scheduleRetries instants post).retryConfig.maxRetries = post.retryConfig.maxRetries
      ∧ 0 ≤ (scheduleRetries instants post).retryConfig.currentRetries
      ∧ (scheduleRetries instants post).retryConfig.currentRetries
          < (scheduleRetries instants post).retryConfig.maxRetries + 1)
    ∧ ((∃ c m : Int, post.retryConfig.currentRetries = c ∧ post.retryConfig.maxRetries = m) →
        (scheduleRetries instants post).retryConfig.currentRetries
          ≤ (scheduleRetries instants post).retryConfig.maxRetries)
    ∧ (∀ now, post.retryConfig.maxRetries ≤ post.retryConfig.currentRetries →
        scheduleRetry now post = post) := by
  refine ⟨?_, ?_, ?_⟩
  · obtain ⟨hmax, hlow, hhigh⟩ :=
      scheduleRetries_counter instants post h0 (lt_of_le_of_lt hle (lt_add_one _))
    exact ⟨hmax, hlow, by rw [hmax]; exact hhigh⟩
  · rintro ⟨c, m, hc, hm⟩
    refine scheduleRetries_counter_int instants post c m hc hm ?_
    rw [hc, hm] at hle
    exact_mod_cast hle
  · intro now hge
    exact scheduleRetry_refused now post (not_lt.2 hge)

/-- C12 (witness): four calls on a failed post with the default limit 3 stop at 3, a call on
the exhausted post changes nothing, and four calls on the post with limit 2.5 stop below
3.5. -/
theorem scheduleRetry_bound_witness :
    (scheduleRetries [10, 20, 30, 40] Example.allFailedPost).retryConfig.currentRetries
        ≤ (scheduleRetries [10, 20, 30, 40] Example.allFailedPost).retryConfig.maxRetries
    ∧ scheduleRetry 50 Example.exhaustedPost = Example.exhaustedPost
    ∧ (scheduleRetries [10, 20, 30, 40] Example.fractionalLimitPost).retryConfig.currentRetries
        < (scheduleRetries [10, 20, 30, 40] Example.fractionalLimitPost).retryConfig.maxRetries
          + 1 :=
  ⟨(scheduleRetry_bound [10, 20, 30, 40] Example.allFailedPost (by decide) (by decide)).2.1
      ⟨0, 3, by norm_num [Example.allFailedPost], by norm_num [Example.allFailedPost]⟩,
   (scheduleRetry_bound [] Example.exhaustedPost (by decide) (by decide)).2.2 50 (by decide),
   (scheduleRetry_bound [10, 20, 30, 40] Example.fractionalLimitPost (by decide)
      (by norm_num [Example.fractionalLimitPost, Example.allFailedPost])).1.2.2⟩

/-- C13 (counterexample).  `scheduleRetry` on a published post with no retry used grants a
retry: the status becomes `scheduled`, `currentRetries` becomes 1 and `nextRetryAt` is set. -/
theorem scheduleRetry_on_published :
    Example.publishedPost.status = .published
    ∧ Example.publishedPost.retryConfig.currentRetries = 0
    ∧ (scheduleRetry 3000 Example.publishedPost).status = .scheduled
    ∧ (scheduleRetry 3000 Example.publishedPost).retryConfig.currentRetries = 1
    ∧ (scheduleRetry 3000 Example.publishedPost).retryConfig.nextRetryAt = some 303000 := by
  norm_num [scheduleRetry, Example.publishedPost]

/-- C13 (amended).  `scheduleRetry` does not look at the status.  It grants a retry
(increments `currentRetries`, sets `nextRetryAt`, sets the status to `scheduled`) exactly when
`currentRetries < maxRetries`, whatever the status before the call; when
`currentRetries ≥ maxRetries` it changes nothing. -/
theorem scheduleRetry_grants_iff (now : Nat) (post : ScheduledPost) :
    (post.retryConfig.currentRetries < post.retryConfig.maxRetries →
      (scheduleRetry now post).retryConfig.currentRetries = post.retryConfig.currentRetries + 1
      ∧ (scheduleRetry now post).retryConfig.nextRetryAt
          = some ((now : Int) + post.retryConfig.retryInterval)
      ∧ (scheduleRetry now post).status = .scheduled)
    ∧ (post.retryConfig.maxRetries ≤ post.retryConfig.currentRetries →
      scheduleRetry now post = post) := by
  constructor
  · intro h
    rw [scheduleRetry_granted now post h]
    exact ⟨rfl, rfl, rfl⟩
  · intro h
    exact scheduleRetry_refused now post (not_lt.2 h)

/-- C13 (witness): a retry is granted to a failed post with retries left and refused to the
exhausted post. -/
theorem scheduleRetry_grants_iff_witness :
    ((scheduleRetry 3000 Example.allFailedPost).retryConfig.currentRetries = 0 + 1
      ∧ (scheduleRetry 3000 Example.allFailedPost).retryConfig.nextRetryAt
          = some ((3000 : Int) + 300000)
      ∧ (scheduleRetry 3000 Example.allFailedPost).status = .scheduled)
    ∧ scheduleRetry 3000 Example.exhaustedPost = Example.exhaustedPost :=
  ⟨(scheduleRetry_grants_iff 3000 Example.allFailedPost).1 (by decide),
   (scheduleRetry_grants_iff 3000 Example.exhaustedPost).2 (by decide)⟩

/-- C14 (counterexample).  With the default `retryInterval` of 300000 ms the retry granted at
`currentRetries = 1` is set 300000 ms ahead, the same as at `currentRetries = 0`, whereas
the exponential rule with a cap of one hour gives 600000 ms at `k = 1`, twice the 300000 ms
it gives at `k = 0`. -/
theorem scheduleRetry_delay_not_exponential :
    (Example.allFailedPost.retryConfig.currentRetries = 0
      ∧ Example.allFailedPost.retryConfig.retryInterval = 300000
      ∧ (scheduleRetry 2000 Example.allFailedPost).retryConfig.nextRetryAt
          = some (2000 + 300000))
    ∧ (Example.allFailedPostRetriedOnce.retryConfig.currentRetries = 1
      ∧ Example.allFailedPostRetriedOnce.retryConfig.retryInterval = 300000
      ∧ (scheduleRetry 2000 Example.allFailedPostRetriedOnce).retryConfig.nextRetryAt
          = some (2000 + 300000))
    ∧ specRetryDelay 300000 0 3600000 = 300000
    ∧ specRetryDelay 300000 1 3600000 = 600000 := by
  decide

/-- C14 (amended).  When `scheduleRetry` grants a retry at instant `now` on a post with
`retryInterval = b`, it sets `nextRetryAt = now + b` whatever `currentRetries` is: the delay is
the constant `b`, with no exponential growth and no cap, so two posts with the same
`retryInterval` get the same delay at `k = 0` and at `k = 1`. -/
theorem scheduleRetry_delay_constant (now : Nat) (post : ScheduledPost)
    (h : post.retryConfig.currentRetries < post.retryConfig.maxRetries) :
    (scheduleRetry now post).retryConfig.nextRetryAt
        = some ((now : Int) + post.retryConfig.retryInterval)
    ∧ (∀ other : ScheduledPost,
        other.retryConfig.currentRetries < other.retryConfig.maxRetries →
        other.retryConfig.retryInterval = post.retryConfig.retryInterval →
        (scheduleRetry now other).retryConfig.nextRetryAt
          = (scheduleRetry now post).retryConfig.nextRetryAt) := by
  have hpost : (scheduleRetry now post).retryConfig.nextRetryAt
      = some ((now : Int) + post.retryConfig.retryInterval) := by
    rw [scheduleRetry_granted now post h]
  refine ⟨hpost, ?_⟩
  intro other hother hinterval
  rw [hpost, scheduleRetry_granted now other hother, ← hinterval]

/-- C14 (witness): the delay at `k = 1` equals the delay at `k = 0`. -/
theorem scheduleRetry_delay_constant_witness :
    (scheduleRetry 2000 Example.allFailedPost).retryConfig.nextRetryAt
        = some ((2000 : Int) + 300000)
    ∧ (scheduleRetry 2000 Example.allFailedPostRetriedOnce).retryConfig.nextRetryAt
        = (scheduleRetry 2000 Example.allFailedPost).retryConfig.nextRetryAt :=
  ⟨(scheduleRetry_delay_constant 2000 Example.allFailedPost (by decide)).1,
   (scheduleRetry_delay_constant 2000 Example.allFailedPost (by decide)).2
      Example.allFailedPostRetriedOnce (by decide) (by decide)⟩

/-- C15.  For two granted retries of posts with the same `retryInterval` (in particular two
consecutive retries of one post, between which `retryInterval` is unchanged), the delay
`nextRetryAt - now` of the later call is greater than or equal to (in fact equal to) the delay
of the earlier one. -/
theorem scheduleRetry_delay_monotone (now1 now2 : Nat) (earlier later : ScheduledPost)
    (hearlier : earlier.retryConfig.currentRetries < earlier.retryConfig.maxRetries)
    (hlater : later.retryConfig.currentRetries < later.retryConfig.maxRetries)
    (hinterval : later.retryConfig.retryInterval = earlier.retryConfig.retryInterval) :
    ∃ t1 t2 : Int,
      (scheduleRetry now1 earlier).retryConfig.nextRetryAt = some t1
      ∧ (scheduleRetry now2 later).retryConfig.nextRetryAt = some t2
      ∧ t1 - now1 ≤ t2 - now2
      ∧ (scheduleRetry now1 earlier).retryConfig.retryInterval
          = earlier.retryConfig.retryInterval := by
  refine ⟨(now1 : Int) + earlier.retryConfig.retryInterval,
    (now2 : Int) + later.retryConfig.retryInterval, ?_, ?_, ?_, ?_⟩
  · rw [scheduleRetry_granted now1 earlier hearlier]
  · rw [scheduleRetry_granted now2 later hlater]
  · rw [hinterval]; omega
  · rw [scheduleRetry_granted now1 earlier hearlier]

/-- C15 (witness): the first and the second retry of the failed post, at instants 2000 and
400000. -/
theorem scheduleRetry_delay_monotone_witness :
    ∃ t1 t2 : Int,
      (scheduleRetry 2000 Example.allFailedPost).retryConfig.nextRetryAt = some t1
      ∧ (scheduleRetry 400000 (scheduleRetry 2000 Example.allFailedPost)).retryConfig.nextRetryAt
          = some t2
      ∧ t1 - (2000 : Nat) ≤ t2 - (400000 : Nat)
      ∧ (scheduleRetry 2000 Example.allFailedPost).retryConfig.retryInterval
          = Example.allFailedPost.retryConfig.retryInterval :=
  scheduleRetry_delay_monotone 2000 400000 Example.allFailedPost
    (scheduleRetry 2000 Example.allFailedPost) (by decide)
    (by norm_num [scheduleRetry, Example.allFailedPost])
    (by norm_num [scheduleRetry, Example.allFailedPost])

/-- C16 (counterexample).  A retry granted to a partially published post (Instagram
published, Facebook failed) leaves Facebook `failed`, where the reset of the specification
would make it `scheduled`. -/
theorem scheduleRetry_keeps_failed_target :
    Example.partialPost.retryConfig.currentRetries < Example.partialPost.retryConfig.maxRetries
    ∧ (scheduleRetry 3000 Example.partialPost).status = .scheduled
    ∧ (scheduleRetry 3000 Example.partialPost).platforms.map (fun t => t.status)
        = [.published, .failed]
    ∧ (specRetryTargets Example.partialPost.platforms).map (fun t => t.status)
        = [.published, .scheduled] := by
  decide

/-- C16 (amended).  `scheduleRetry` leaves the target list exactly as it was, whether or not
it grants a retry: no failed target is reset to `scheduled`, and every target, each published
one with its `platformPostId` and `publishedAt` included, is unchanged. -/
theorem scheduleRetry_targets_unchanged (now : Nat) (post : ScheduledPost) :
    (scheduleRetry now post).platforms = post.platforms
    ∧ ∀ t ∈ post.platforms, t.status = .failed →
        ∃ u ∈ (scheduleRetry now post).platforms, u = t ∧ u.status = .failed := by
  have h := scheduleRetry_platforms now post
  refine ⟨h, ?_⟩
  intro t ht hfailed
  exact ⟨t, by rw [h]; exact ht, rfl, hfailed⟩

/-! ## C17: a failed attempt and the retry policy -/

/-- `executeScheduledPost` never changes the `retryConfig` of the post it runs. -/
theorem executeScheduledPost_retryConfig (env : ExecEnv) (store : Store) (postId : Nat) :
    ((executeScheduledPost env store postId).1.findById postId).map (fun p => p.retryConfig) =
      (store.findById postId).map (fun p => p.retryConfig) := by
  cases hfind : store.findById postId with
  | none => rw [executeScheduledPost_of_missing env store postId hfind, hfind]
  | some post =>
    by_cases hstatus : post.status = .scheduled
    · rw [executeScheduledPost_of_scheduled env store postId post hfind hstatus]
      rcases executeTryBlock_cases env store postId post with
        ⟨m, _, ho⟩ | ⟨_, calls, m, _, ho⟩ | ⟨_, _, call, r, _, ho⟩
      · rw [ho]
        simp only [executeCatchBlock]
        cases env.updateFailedError <;> simp [findById_update, hfind]
      · rw [ho]
        simp only [executeCatchBlock]
        cases env.updateFailedError <;>
          simp [Store.save, ScheduledPost.persist, findById_update, hfind]
      · rw [ho]
        simp [Store.save, ScheduledPost.persist, findById_update, hfind]
    · rw [executeScheduledPost_of_not_scheduled env store postId post hfind hstatus, hfind]

/-- C17 (evaluation at the failing input).  A due scheduled post with no retry used
(`currentRetries = 0 < 3 = maxRetries`), stored as the schema stores it, whose publish attempt
fails (no account is found and line 207 throws).  After `executeScheduledPost` the post is
`failed`, `currentRetries` is still 0 and `nextRetryAt` is unset.  The entity method
`scheduleRetry`, which the service never calls, applied to the post as the run left it makes it
`scheduled` with `currentRetries` 1 and `nextRetryAt` set. -/
theorem executeScheduledPost_no_retry :
    (Example.singleTargetPost.status = .scheduled
      ∧ Example.singleTargetPost.retryConfig.currentRetries = 0
      ∧ Example.singleTargetPost.retryConfig.maxRetries = 3)
    ∧ (executeScheduledPost Example.envPopulatedPublisherDown
        [(1, Example.singleTargetPost)] 1).2 = []
    ∧ ((executeScheduledPost Example.envPopulatedPublisherDown
          [(1, Example.singleTargetPost)] 1).1.findById 1).map
        (fun p => (p.status, p.retryConfig.currentRetries, p.retryConfig.nextRetryAt))
      = some (.failed, 0, none)
    ∧ ((executeScheduledPost Example.envPopulatedPublisherDown
          [(1, Example.singleTargetPost)] 1).1.findById 1).map
        (fun p => ((scheduleRetry 2000 p).status, (scheduleRetry 2000 p).retryConfig.currentRetries,
          (scheduleRetry 2000 p).retryConfig.nextRetryAt))
      = some (.scheduled, 1, some 302000) := by
  have hrun : (executeScheduledPost Example.envPopulatedPublisherDown
      [(1, Example.singleTargetPost)] 1).1.findById 1 = some Example.failedPost := by
    decide
  refine ⟨by decide, by decide, by rw [hrun]; decide, ?_⟩
  rw [hrun]
  norm_num [scheduleRetry, Example.failedPost, Example.singleTargetPost]

/-! ## C18 - C20: the operations that end with `updateOverallStatus` -/

/-- Running `updateOverallStatus` a second time does not change the status. -/
theorem updateOverallStatus_status_idem (now1 now2 : Nat) (post : ScheduledPost) :
    (updateOverallStatus now2 (updateOverallStatus now1 post)).status
      = (updateOverallStatus now1 post).status := by
  rw [status_after_updateOverallStatus now2]
  have hp : (updateOverallStatus now1 post).platforms = post.platforms := rfl
  rw [hp, status_after_updateOverallStatus now1]
  generalize uniqueValues (post.platforms.map (fun p => p.status)) = unique
  generalize ((post.platforms.map (fun p => p.status)).contains .published
    && (post.platforms.map (fun p => p.status)).contains .failed) = mixed
  generalize (post.platforms.map (fun p => p.status)).contains .publishing = open1
  rcases unique with _ | ⟨a, _ | ⟨b, rest⟩⟩ <;> cases mixed <;> cases open1 <;> rfl

/-- The status after `updateOverallStatus` depends only on the targets and the status
before. -/
theorem updateOverallStatus_status_congr (now1 now2 : Nat) (p q : ScheduledPost)
    (hplatforms : p.platforms = q.platforms) (hstatus : p.status = q.status) :
    (updateOverallStatus now1 p).status = (updateOverallStatus now2 q).status := by
  rw [status_after_updateOverallStatus, status_after_updateOverallStatus, hplatforms, hstatus]

/-- After `updateOverallStatus` the status is settled. -/
theorem statusSettled_updateOverallStatus (now : Nat) (post : ScheduledPost) :
    statusSettled (updateOverallStatus now post) = true := by
  simp only [statusSettled, decide_eq_true_eq]
  exact updateOverallStatus_status_idem now 0 post

/-- When all targets are published, failed or cancelled, `updateOverallStatus` stamps
`completedAt`. -/
theorem updateOverallStatus_completedAt (now : Nat) (post : ScheduledPost)
    (h : ∀ t ∈ post.platforms,
      t.status = .published ∨ t.status = .failed ∨ t.status = .cancelled) :
    (updateOverallStatus now post).completedAt = some now := by
  have hall : (post.platforms.map (fun p => p.status)).all
      (fun s => completedStatuses.contains s) = true := by
    rw [List.all_eq_true]
    intro s hs
    obtain ⟨t, ht, rfl⟩ := List.mem_map.1 hs
    rcases h t ht with h1 | h1 | h1 <;> rw [h1] <;> decide
  simp only [updateOverallStatus, hall, if_true]

/-- When all targets of a non-empty list share one status, `updateOverallStatus` gives the
post that status. -/
theorem updateOverallStatus_all_eq (now : Nat) (post : ScheduledPost) (s : TargetStatus)
    (hne : post.platforms ≠ []) (hall : ∀ t ∈ post.platforms, t.status = s) :
    (updateOverallStatus now post).status = s.toPostStatus := by
  have hu : uniqueValues (post.platforms.map (fun p => p.status)) = [s] := by
    apply uniqueValues_of_all_eq s _ (by simpa using hne)
    intro y hy
    obtain ⟨t, ht, rfl⟩ := List.mem_map.1 hy
    exact hall t ht
  rw [status_after_updateOverallStatus, hu]

theorem modifyAt_ne_nil {α : Type} (change : α → α) (i : Nat) (l : List α) (h : l ≠ []) :
    modifyAt change i l ≠ [] := by
  cases l with
  | nil => exact absurd rfl h
  | cons x xs => cases i <;> simp [modifyAt]

/-- What `markPlatformAsPublished` returns when the post has a target for the platform. -/
theorem markPlatformAsPublished_found (now : Nat) (platform platformPostId : String)
    (post : ScheduledPost) (metrics : MetricsUpdate) (i : Nat)
    (h : findIndex (fun p => decide (p.platform = platform)) post.platforms = some i) :
    markPlatformAsPublished now platform platformPostId post metrics =
      updateOverallStatus now
        { post with
          platforms := modifyAt (fun target =>
            { target with
              status := .published
              publishedAt := some now
              platformPostId := some platformPostId
              metrics := target.metrics.merge metrics }) i post.platforms
          executionLogs := post.executionLogs ++
            [{ action := .published, platform := some platform,
               message := "Successfully published to " ++ platform, timestamp := now }] } := by
  simp only [markPlatformAsPublished, h]

/-- What `markPlatformAsFailed` returns when the post has a target for the platform. -/
theorem markPlatformAsFailed_found (now : Nat) (platform : String) (error : JsError)
    (post : ScheduledPost) (i : Nat)
    (h : findIndex (fun p => decide (p.platform = platform)) post.platforms = some i) :
    markPlatformAsFailed now platform error post =
      updateOverallStatus now
        { post with
          platforms := modifyAt (fun target =>
            { target with
              status := .failed
              error := some
                { message := orDefault error.message "Unknown error"
                  code := orDefault error.code "UNKNOWN_ERROR"
                  timestamp := now } }) i post.platforms
          executionLogs := post.executionLogs ++
            [{ action := .failed, platform := some platform,
               message := "Failed to publish to " ++ platform ++ ": "
                 ++ jsString error.message,
               error := some error, timestamp := now }] } := by
  simp only [markPlatformAsFailed, h]

/-- A post that has a target for the platform gives `findIndex` an index. -/
theorem findIndex_of_mem (platform : String) (post : ScheduledPost)
    (h : ∃ t ∈ post.platforms, t.platform = platform) :
    ∃ i, findIndex (fun p => decide (p.platform = platform)) post.platforms = some i := by
  cases hf : findIndex (fun p => decide (p.platform = platform)) post.platforms with
  | some i => exact ⟨i, rfl⟩
  | none =>
    obtain ⟨t, ht, htp⟩ := h
    have := (findIndex_eq_none _ _).1 hf t ht
    simp [htp] at this

/-- C18 (counterexample).  Each of the three posts satisfies the predicate before the
operation, both as `status = step 5 of the targets` and as `updateOverallStatus would not
change the status`.  After `markPlatformAsPublished` on the first (Instagram publishing,
Facebook failed, LinkedIn publishing) the status is `partially_published`, not the step-5
value `publishing`.  After `cancel` on the second (one publishing target) the status is
`cancelled` while the target is publishing, and after `scheduleRetry` on the third (one failed
target) the status is `scheduled` while the target is failed: both readings fail. -/
theorem entity_operations_break_status_predicate :
    (matchesStep5 Example.threeTargetPost = true
      ∧ statusSettled Example.threeTargetPost = true
      ∧ (markPlatformAsPublished 3000 "instagram" "remote-2" Example.threeTargetPost).status
          = .partially_published
      ∧ matchesStep5
          (markPlatformAsPublished 3000 "instagram" "remote-2" Example.threeTargetPost) = false)
    ∧ (matchesStep5 Example.publishingPost = true
      ∧ statusSettled Example.publishingPost = true
      ∧ matchesStep5 (cancel 3000 Example.publishingPost) = false
      ∧ statusSettled (cancel 3000 Example.publishingPost) = false)
    ∧ (matchesStep5 Example.allFailedPost = true
      ∧ statusSettled Example.allFailedPost = true
      ∧ matchesStep5 (scheduleRetry 3000 Example.allFailedPost) = false
      ∧ statusSettled (scheduleRetry 3000 Example.allFailedPost) = false) := by
  decide

/-- C18 (amended).  The predicate `running updateOverallStatus would not change the status`
is preserved by `markPlatformAsPublished` and by `markPlatformAsFailed`: if it holds before
either of them, it holds after. -/
theorem mark_operations_preserve_statusSettled (now : Nat) (platform platformPostId : String)
    (metrics : MetricsUpdate) (error : JsError) (post : ScheduledPost)
    (h : statusSettled post = true) :
    statusSettled (markPlatformAsPublished now platform platformPostId post metrics) = true
    ∧ statusSettled (markPlatformAsFailed now platform error post) = true := by
  cases hf : findIndex (fun p => decide (p.platform = platform)) post.platforms with
  | none =>
    constructor
    · simpa only [markPlatformAsPublished, hf] using h
    · simpa only [markPlatformAsFailed, hf] using h
  | some i =>
    constructor
    · rw [markPlatformAsPublished_found now platform platformPostId post metrics i hf]
      exact statusSettled_updateOverallStatus _ _
    · rw [markPlatformAsFailed_found now platform error post i hf]
      exact statusSettled_updateOverallStatus _ _

/-- C18 (witness): publishing the last open target of a settled post. -/
theorem mark_operations_preserve_statusSettled_witness :
    statusSettled Example.lastTargetPublishingPost = true
    ∧ statusSettled
        (markPlatformAsPublished 3000 "facebook" "remote-2" Example.lastTargetPublishingPost)
        = true
    ∧ statusSettled
        (markPlatformAsFailed 3000 "facebook" { message := some "timeout" }
          Example.lastTargetPublishingPost) = true :=
  ⟨by decide,
   (mark_operations_preserve_statusSettled 3000 "facebook" "remote-2" {}
      { message := some "timeout" } Example.lastTargetPublishingPost (by decide)).1,
   (mark_operations_preserve_statusSettled 3000 "facebook" "remote-2" {}
      { message := some "timeout" } Example.lastTargetPublishingPost (by decide)).2⟩

/-- C19 (counterexample).  Four posts whose resulting status is terminal while `completedAt`
is unset: `cancel` on a scheduled post, a successful `cancelScheduledPost`, an
`executeScheduledPost` on a due post stored as the schema stores it (the run ends `failed`),
and `markPlatformAsPublished` on a failed post whose other target is still `scheduled`. -/
theorem terminal_status_without_completedAt :
    ((cancel 3000 Example.singleTargetPost).status = .cancelled
      ∧ (cancel 3000 Example.singleTargetPost).completedAt = none)
    ∧ ((cancelScheduledPost 2000 none Example.worldWithTimer 1).2.store.findById 1).map
          (fun p => (p.status, p.completedAt)) = some (.cancelled, none)
    ∧ ((executeScheduledPost Example.envPopulated
          [(1, Example.singleTargetPost)] 1).1.findById 1).map
          (fun p => (p.status, p.completedAt)) = some (.failed, none)
    ∧ ((markPlatformAsPublished 3000 "instagram" "remote-2" Example.failedTwoTargetPost).status
          = .failed
      ∧ (markPlatformAsPublished 3000 "instagram" "remote-2"
          Example.failedTwoTargetPost).completedAt = none) := by
  decide

/-- C19 (amended).  After `markPlatformAsPublished` or `markPlatformAsFailed` on a post that
has a target for the platform, `completedAt` is set to the current instant whenever every
target is then published, failed or cancelled; in particular, whenever all targets then share
one of these three statuses, the post has that status and `completedAt` is set. -/
theorem mark_operations_stamp_completedAt (now : Nat) (platform platformPostId : String)
    (metrics : MetricsUpdate) (error : JsError) (post : ScheduledPost)
    (hfound : ∃ t ∈ post.platforms, t.platform = platform) :
    (((∀ t ∈ (markPlatformAsPublished now platform platformPostId post metrics).platforms,
          t.status = .published ∨ t.status = .failed ∨ t.status = .cancelled) →
        (markPlatformAsPublished now platform platformPostId post metrics).completedAt
          = some now)
      ∧ (∀ s, (s = .published ∨ s = .failed ∨ s = .cancelled) →
          (∀ t ∈ (markPlatformAsPublished now platform platformPostId post metrics).platforms,
            t.status = s) →
          (markPlatformAsPublished now platform platformPostId post metrics).status
            = s.toPostStatus
          ∧ (markPlatformAsPublished now platform platformPostId post metrics).completedAt
            = some now))
    ∧ (((∀ t ∈ (markPlatformAsFailed now platform error post).platforms,
          t.status = .published ∨ t.status = .failed ∨ t.status = .cancelled) →
        (markPlatformAsFailed now platform error post).completedAt = some now)
      ∧ (∀ s, (s = .published ∨ s = .failed ∨ s = .cancelled) →
          (∀ t ∈ (markPlatformAsFailed now platform error post).platforms, t.status = s) →
          (markPlatformAsFailed now platform error post).status = s.toPostStatus
          ∧ (markPlatformAsFailed now platform error post).completedAt = some now)) := by
  obtain ⟨i, hi⟩ := findIndex_of_mem platform post hfound
  have hne : post.platforms ≠ [] := by
    obtain ⟨t, ht, _⟩ := hfound
    exact List.ne_nil_of_mem ht
  have key : ∀ q : ScheduledPost, q.platforms ≠ [] →
      ((∀ t ∈ (updateOverallStatus now q).platforms,
          t.status = .published ∨ t.status = .failed ∨ t.status = .cancelled) →
        (updateOverallStatus now q).completedAt = some now)
      ∧ (∀ s, (s = .published ∨ s = .failed ∨ s = .cancelled) →
          (∀ t ∈ (updateOverallStatus now q).platforms, t.status = s) →
          (updateOverallStatus now q).status = s.toPostStatus
          ∧ (updateOverallStatus now q).completedAt = some now) := by
    intro q hq
    have hp : (updateOverallStatus now q).platforms = q.platforms := rfl
    rw [hp]
    refine ⟨fun h => updateOverallStatus_completedAt now q h, ?_⟩
    intro s hs hall
    refine ⟨updateOverallStatus_all_eq now q s hq hall,
      updateOverallStatus_completedAt now q ?_⟩
    intro t ht
    rw [hall t ht]
    exact hs
  constructor
  · rw [markPlatformAsPublished_found now platform platformPostId post metrics i hi]
    exact key _ (modifyAt_ne_nil _ i post.platforms hne)
  · rw [markPlatformAsFailed_found now platform error post i hi]
    exact key _ (modifyAt_ne_nil _ i post.platforms hne)

/-- C19 (witness): publishing the last open target completes the post. -/
theorem mark_operations_stamp_completedAt_witness :
    (markPlatformAsPublished 3000 "facebook" "remote-2"
        Example.lastTargetPublishingPost).status = .published
    ∧ (markPlatformAsPublished 3000 "facebook" "remote-2"
        Example.lastTargetPublishingPost).completedAt = some 3000 :=
  ((mark_operations_stamp_completedAt 3000 "facebook" "remote-2" {} {}
      Example.lastTargetPublishingPost
      ⟨{ platform := "facebook", accountId := 78, status := .publishing }, by decide, rfl⟩).1.2
    .published (Or.inl rfl) (by decide))

/-- C20 (counterexample).  The post lists Instagram twice, the first entry scheduled and the
second publishing.  `markPlatformAsPublished` for Instagram changes the first entry and
leaves the publishing one as it was. -/
theorem markPlatformAsPublished_duplicate_platform :
    Example.duplicatePlatformPost.platforms.map (fun t => (t.platform, t.status))
      = [("instagram", .scheduled), ("instagram", .publishing)]
    ∧ (markPlatformAsPublished 3000 "instagram" "remote-2"
        Example.duplicatePlatformPost).platforms.map
          (fun t => (t.platform, t.status, t.platformPostId))
      = [("instagram", .published, some "remote-2"), ("instagram", .publishing, none)] := by
  decide

/-- C20 (amended).  For every post whose first target for the given platform is in status
`publishing`, after `markPlatformAsPublished(platform, id)` that target has status
`published`, `platformPostId = id` and `publishedAt` set to the current instant (its metrics
merged with the supplied ones, its other fields kept), every other target is unchanged, one
log entry with action `published` is appended, and the post's status is the one
`updateOverallStatus` computes from the new targets. -/
theorem markPlatformAsPublished_first_target (now : Nat) (platform platformPostId : String)
    (metrics : MetricsUpdate) (post : ScheduledPost)
    (pre : List PlatformTarget) (target : PlatformTarget) (suf : List PlatformTarget)
    (hsplit : post.platforms = pre ++ target :: suf)
    (hpre : ∀ u ∈ pre, u.platform ≠ platform)
    (htarget : target.platform = platform)
    (_hstatus : target.status = .publishing) :
    (markPlatformAsPublished now platform platformPostId post metrics).platforms =
      pre ++ { target with
               status := .published
               publishedAt := some now
               platformPostId := some platformPostId
               metrics := target.metrics.merge metrics } :: suf
    ∧ (markPlatformAsPublished now platform platformPostId post metrics).executionLogs =
        post.executionLogs ++
          [{ action := .published, platform := some platform,
             message := "Successfully published to " ++ platform, timestamp := now }]
    ∧ (markPlatformAsPublished now platform platformPostId post metrics).status =
        (updateOverallStatus now
          { post with
            platforms := pre ++ { target with
               status := .published
               publishedAt := some now
               platformPostId := some platformPostId
               metrics := target.metrics.merge metrics } :: suf }).status := by
  have hi : findIndex (fun p => decide (p.platform = platform)) post.platforms
      = some pre.length := by
    rw [hsplit]
    apply findIndex_append
    · intro u hu
      simpa using hpre u hu
    · simpa using htarget
  rw [markPlatformAsPublished_found now platform platformPostId post metrics _ hi]
  have hmod : modifyAt (fun t : PlatformTarget =>
      { t with
        status := .published
        publishedAt := some now
        platformPostId := some platformPostId
        metrics := t.metrics.merge metrics }) pre.length post.platforms
      = pre ++ { target with
               status := .published
               publishedAt := some now
               platformPostId := some platformPostId
               metrics := target.metrics.merge metrics } :: suf := by
    rw [hsplit]
    exact modifyAt_append _ pre target suf
  refine ⟨?_, rfl, ?_⟩
  · show modifyAt _ pre.length post.platforms = _
    exact hmod
  · exact updateOverallStatus_status_congr now now _ _ hmod rfl

/-- C20 (witness): Facebook, the second target, is publishing and gets published. -/
theorem markPlatformAsPublished_first_target_witness :
    (markPlatformAsPublished 3000 "facebook" "remote-2"
        Example.lastTargetPublishingPost).platforms =
      [{ platform := "instagram", accountId := 77, status := .published,
         publishedAt := some 1500, platformPostId := some "remote-1" },
       { platform := "facebook", accountId := 78, status := .published,
         publishedAt := some 3000, platformPostId := some "remote-2" }] :=
  (markPlatformAsPublished_first_target 3000 "facebook" "remote-2" {}
    Example.lastTargetPublishingPost
    [{ platform := "instagram", accountId := 77, status := .published,
       publishedAt := some 1500, platformPostId := some "remote-1" }]
    { platform := "facebook", accountId := 78, status := .publishing } []
    rfl (by decide) rfl rfl).1

/-! ## C21, C22: `markPlatformAsFailed` and the status of the target -/

/-- The value `orDefault` gives: the text when it is present and not empty, the fallback
otherwise. -/
theorem orDefault_eq (text : Option String) (fallback : String) :
    (∀ value, text = some value → value ≠ "" → orDefault text fallback = value)
    ∧ (text = none ∨ text = some "" → orDefault text fallback = fallback) := by
  constructor
  · intro value h hne
    simp [orDefault, h, hne]
  · rintro (h | h) <;> simp [orDefault, h]

/-- C21 (counterexample).  On the post that lists Instagram twice (first entry scheduled,
second publishing) `markPlatformAsFailed` for Instagram fails the first entry and leaves the
publishing one as it was; and an error whose message is the empty string is recorded with the
message `Unknown error`. -/
theorem markPlatformAsFailed_duplicate_platform :
    (Example.duplicatePlatformPost.platforms.map (fun t => (t.platform, t.status))
        = [("instagram", .scheduled), ("instagram", .publishing)]
      ∧ (markPlatformAsFailed 3000 "instagram" { message := some "timeout" }
          Example.duplicatePlatformPost).platforms.map (fun t => (t.platform, t.status))
        = [("instagram", .failed), ("instagram", .publishing)])
    ∧ (markPlatformAsFailed 3000 "instagram" { message := some "", code := some "E1" }
          Example.publishingPost).platforms.map (fun t => t.error)
        = [some { message := "Unknown error", code := "E1", timestamp := 3000 }] := by
  decide

/-- C21 (amended).  For every post whose first target for the given platform is in status
`publishing` and every error value, after `markPlatformAsFailed(platform, error)` that target
has status `failed` and the recorded error has `message = error.message` (`Unknown error`
when the message is absent or empty), `code = error.code` (`UNKNOWN_ERROR` when the code is
absent or empty) and the current instant as timestamp; its `platformPostId` and its other
fields are not written and every other target is unchanged. -/
theorem markPlatformAsFailed_first_target (now : Nat) (platform : String) (error : JsError)
    (post : ScheduledPost)
    (pre : List PlatformTarget) (target : PlatformTarget) (suf : List PlatformTarget)
    (hsplit : post.platforms = pre ++ target :: suf)
    (hpre : ∀ u ∈ pre, u.platform ≠ platform)
    (htarget : target.platform = platform)
    (_hstatus : target.status = .publishing) :
    (markPlatformAsFailed now platform error post).platforms =
      pre ++ { target with
               status := .failed
               error := some
                 { message := orDefault error.message "Unknown error"
                   code := orDefault error.code "UNKNOWN_ERROR"
                   timestamp := now } } :: suf
    ∧ (∀ m, error.message = some m → m ≠ "" → orDefault error.message "Unknown error" = m)
    ∧ (error.message = none ∨ error.message = some "" →
        orDefault error.message "Unknown error" = "Unknown error")
    ∧ (∀ c, error.code = some c → c ≠ "" → orDefault error.code "UNKNOWN_ERROR" = c)
    ∧ (error.code = none ∨ error.code = some "" →
        orDefault error.code "UNKNOWN_ERROR" = "UNKNOWN_ERROR") := by
  have hi : findIndex (fun p => decide (p.platform = platform)) post.platforms
      = some pre.length := by
    rw [hsplit]
    apply findIndex_append
    · intro u hu
      simpa using hpre u hu
    · simpa using htarget
  refine ⟨?_, (orDefault_eq _ _).1, (orDefault_eq _ _).2, (orDefault_eq _ _).1,
    (orDefault_eq _ _).2⟩
  rw [markPlatformAsFailed_found now platform error post _ hi]
  show modifyAt _ pre.length post.platforms = _
  rw [hsplit]
  exact modifyAt_append _ pre target suf

/-- C21 (witness): Facebook, the second target, is publishing and fails with a timeout. -/
theorem markPlatformAsFailed_first_target_witness :
    (markPlatformAsFailed 3000 "facebook" { message := some "timeout" }
        Example.lastTargetPublishingPost).platforms =
      [{ platform := "instagram", accountId := 77, status := .published,
         publishedAt := some 1500, platformPostId := some "remote-1" },
       { platform := "facebook", accountId := 78, status := .failed,
         error := some { message := "timeout", code := "UNKNOWN_ERROR", timestamp := 3000 } }] := by
  have h := (markPlatformAsFailed_first_target 3000 "facebook" { message := some "timeout" }
    Example.lastTargetPublishingPost
    [{ platform := "instagram", accountId := 77, status := .published,
       publishedAt := some 1500, platformPostId := some "remote-1" }]
    { platform := "facebook", accountId := 78, status := .publishing } []
    rfl (by decide) rfl rfl).1
  rw [h]
  decide

/-- C22 (counterexample).  `markPlatformAsFailed` turns a published target into a failed one,
and `markPlatformAsPublished` turns a cancelled target and a failed target into published
ones. -/
theorem mark_operations_ignore_target_status :
    (Example.settledTargetsPost.platforms.map (fun t => (t.platform, t.status))
        = [("instagram", .published), ("facebook", .cancelled)]
      ∧ (markPlatformAsFailed 3000 "instagram" { message := some "late error" }
          Example.settledTargetsPost).platforms.map (fun t => t.status)
        = [.failed, .cancelled]
      ∧ (markPlatformAsPublished 3000 "facebook" "remote-2"
          Example.settledTargetsPost).platforms.map (fun t => t.status)
        = [.published, .published])
    ∧ (Example.allFailedPost.platforms.map (fun t => t.status) = [.failed]
      ∧ (markPlatformAsPublished 3000 "instagram" "remote-2"
          Example.allFailedPost).platforms.map (fun t => t.status) = [.published]) := by
  decide

/-- C22 (amended).  `markPlatformAsPublished` and `markPlatformAsFailed` do not look at the
status of the target.  Called for a platform that has no target in the post they return the
post unchanged; called for a platform that has a target they set the first target for that
platform to `published`, respectively `failed`, whatever its status was, and leave the status
of every other target unchanged. -/
theorem mark_operations_unguarded (now : Nat) (platform platformPostId : String)
    (metrics : MetricsUpdate) (error : JsError) (post : ScheduledPost) :
    ((∀ t ∈ post.platforms, t.platform ≠ platform) →
      markPlatformAsPublished now platform platformPostId post metrics = post
      ∧ markPlatformAsFailed now platform error post = post)
    ∧ (∀ pre target suf, post.platforms = pre ++ target :: suf →
        (∀ u ∈ pre, u.platform ≠ platform) → target.platform = platform →
        (markPlatformAsPublished now platform platformPostId post metrics).platforms.map
            (fun t => t.status)
          = pre.map (fun t => t.status) ++ .published :: suf.map (fun t => t.status)
        ∧ (markPlatformAsFailed now platform error post).platforms.map (fun t => t.status)
          = pre.map (fun t => t.status) ++ .failed :: suf.map (fun t => t.status)) := by
  constructor
  · intro hnone
    have hi : findIndex (fun p => decide (p.platform = platform)) post.platforms = none := by
      rw [findIndex_eq_none]
      intro t ht
      simpa using hnone t ht
    constructor
    · simp only [markPlatformAsPublished, hi]
    · simp only [markPlatformAsFailed, hi]
  · intro pre target suf hsplit hpre htarget
    have hi : findIndex (fun p => decide (p.platform = platform)) post.platforms
        = some pre.length := by
      rw [hsplit]
      apply findIndex_append
      · intro u hu
        simpa using hpre u hu
      · simpa using htarget
    constructor
    · rw [markPlatformAsPublished_found now platform platformPostId post metrics _ hi]
      show (modifyAt _ pre.length post.platforms).map _ = _
      rw [hsplit, modifyAt_append]
      simp
    · rw [markPlatformAsFailed_found now platform error post _ hi]
      show (modifyAt _ pre.length post.platforms).map _ = _
      rw [hsplit, modifyAt_append]
      simp

/-- C22 (witness): LinkedIn has no target in the post, which is returned unchanged. -/
theorem mark_operations_unguarded_witness :
    markPlatformAsPublished 3000 "linkedin" "remote-2" Example.settledTargetsPost
        = Example.settledTargetsPost
    ∧ markPlatformAsFailed 3000 "linkedin" { message := some "timeout" }
        Example.settledTargetsPost = Example.settledTargetsPost :=
  (mark_operations_unguarded 3000 "linkedin" "remote-2" {} { message := some "timeout" }
    Example.settledTargetsPost).1 (by decide)

/-! ## C23, C24: `scheduleIndividualPost` and the timers -/

theorem get_set (tasks : TaskMap) (key : TaskKey) (handle : Nat) :
    (tasks.set key handle).get key = some handle := by
  unfold TaskMap.set
  by_cases hhas : tasks.has key = true
  · rw [if_pos hhas]
    induction tasks with
    | nil => simp [TaskMap.has] at hhas
    | cons e rest ih =>
      by_cases he : e.1 = key
      · simp [TaskMap.get, List.find?_cons, he]
      · have hrest : TaskMap.has rest key = true := by
          simpa [TaskMap.has, he] using hhas
        have := ih hrest
        simp only [TaskMap.get, List.map_cons, he, if_false, List.find?_cons, decide_False]
          at this ⊢
        exact this
  · rw [if_neg hhas]
    have hnone : ∀ e ∈ tasks, ¬ e.1 = key := by
      intro e he hk
      apply hhas
      simp only [TaskMap.has, List.any_eq_true, decide_eq_true_eq]
      exact ⟨e, he, hk⟩
    have hfind : List.find? (fun e => decide (e.1 = key)) tasks = none := by
      rw [List.find?_eq_none]
      intro e he
      simpa using hnone e he
    simp [TaskMap.get, List.find?_append, hfind]

/-- `scheduleIndividualPost(post)` at instant `now`, for a post with a scheduled date: if
`scheduledDate ≤ now` it runs `executeScheduledPost` for the post at once and leaves
`activeTasks` and the pending timers as they were; otherwise it does not run it (store and
publisher calls unchanged) and registers one new timer for the post under the key of the post
in `activeTasks`.  The delay passed to `setTimeout` is `scheduledDate - now`; the timer fires
after that delay when it is at most 2^31 - 1 ms, and after 1 ms when it is greater. -/
theorem scheduleIndividualPost_spec (now : Nat) (env : ExecEnv) (w : World) (postId : Nat)
    (post : ScheduledPost) (scheduledTime : Nat)
    (hdate : post.scheduledDate = some scheduledTime) :
    (scheduledTime ≤ now →
      scheduleIndividualPost now env w postId post =
        { w with
          store := (executeScheduledPost env w.store postId).1
          calls := w.calls ++ (executeScheduledPost env w.store postId).2 }
      ∧ (scheduleIndividualPost now env w postId post).activeTasks = w.activeTasks
      ∧ (scheduleIndividualPost now env w postId post).timeouts = w.timeouts)
    ∧ (now < scheduledTime →
      (scheduleIndividualPost now env w postId post).store = w.store
      ∧ (scheduleIndividualPost now env w postId post).calls = w.calls
      ∧ (scheduleIndividualPost now env w postId post).timeouts =
          w.timeouts ++
            [{ handle := w.nextHandle, postId := postId, delay := some (scheduledTime - now) }]
      ∧ (scheduleIndividualPost now env w postId post).activeTasks.get (.post postId)
          = some w.nextHandle
      ∧ Timeout.firesAfter
            { handle := w.nextHandle, postId := postId, delay := some (scheduledTime - now) }
          = if maxTimeoutDelay < scheduledTime - now then 1 else scheduledTime - now) := by
  constructor
  · intro hdue
    simp [scheduleIndividualPost, hdate, hdue]
  · intro hfuture
    have hnot : ¬ scheduledTime ≤ now := Nat.not_le.2 hfuture
    have hreg : scheduleIndividualPost now env w postId post
        = registerTimeout w postId (some (scheduledTime - now)) := by
      simp [scheduleIndividualPost, hdate, hnot]
    rw [hreg]
    refine ⟨rfl, rfl, rfl, get_set _ _ _, ?_⟩
    have hpos : ¬ scheduledTime - now < 1 := by omega
    by_cases hbig : maxTimeoutDelay < scheduledTime - now
    · simp [Timeout.firesAfter, hbig]
    · simp [Timeout.firesAfter, hbig, hpos]

/-- C23 (evaluation at the failing input).  At instant 2000 a post is scheduled 30 days ahead
(2592000000 ms).  `scheduleIndividualPost` does not run it and registers a timer under the key
of the post, passing the delay 2592000000 to `setTimeout`; that is more than 2^31 - 1, so the
timer fires after 1 ms and not after `scheduledDate - now`.  For the post due at instant
900000 the timer fires after the 898000 ms passed. -/
theorem scheduleIndividualPost_far_future :
    (Example.farFuturePost.scheduledDate = some (2000 + 2592000000)
      ∧ maxTimeoutDelay < 2592000000)
    ∧ ((scheduleIndividualPost 2000 Example.envPopulated
          { store := [(1, Example.farFuturePost)] } 1 Example.farFuturePost).timeouts
        = [{ handle := 0, postId := 1, delay := some 2592000000 }]
      ∧ (scheduleIndividualPost 2000 Example.envPopulated
          { store := [(1, Example.farFuturePost)] } 1 Example.farFuturePost).activeTasks.get
            (.post 1) = some 0
      ∧ (scheduleIndividualPost 2000 Example.envPopulated
          { store := [(1, Example.farFuturePost)] } 1 Example.farFuturePost).store
        = [(1, Example.farFuturePost)]
      ∧ (scheduleIndividualPost 2000 Example.envPopulated
          { store := [(1, Example.farFuturePost)] } 1 Example.farFuturePost).timeouts.map
            Timeout.firesAfter = [1])
    ∧ (scheduleIndividualPost 2000 Example.envPopulated
          { store := [(1, Example.futurePost)] } 1 Example.futurePost).timeouts.map
            Timeout.firesAfter = [898000] := by
  decide

/-- C24 (evaluation at the failing input).  `scheduleIndividualPost` is called twice for the
same post, due in the future.  Afterwards two timers for the post are pending, with handles 0
and 1, while `activeTasks` holds only handle 1 under the key of the post: the first timer was
not cleared.  A `cancelScheduledPost` that follows clears the timer with handle 1 and leaves
the one with handle 0 pending. -/
theorem scheduleIndividualPost_twice_two_timers :
    (scheduleIndividualPost 3000 Example.env
        (scheduleIndividualPost 2000 Example.env { store := [(1, Example.futurePost)] } 1
          Example.futurePost) 1 Example.futurePost).timeouts
      = [{ handle := 0, postId := 1, delay := some 898000 },
         { handle := 1, postId := 1, delay := some 897000 }]
    ∧ (scheduleIndividualPost 3000 Example.env
        (scheduleIndividualPost 2000 Example.env { store := [(1, Example.futurePost)] } 1
          Example.futurePost) 1 Example.futurePost).activeTasks = [(.post 1, 1)]
    ∧ (cancelScheduledPost 4000 none
        (scheduleIndividualPost 3000 Example.env
          (scheduleIndividualPost 2000 Example.env { store := [(1, Example.futurePost)] } 1
            Example.futurePost) 1 Example.futurePost) 1).2.timeouts
      = [{ handle := 0, postId := 1, delay := some 898000 }] := by
  decide

/-! ## C25: the execution log -/

/-- C25.  Each state-changing entity operation appends exactly one entry to `executionLogs`
and leaves the earlier entries as they were: after `markPlatformAsPublished` or
`markPlatformAsFailed` for a platform that has a target, after a granted `scheduleRetry`, and
after `cancel`, the log is the previous log followed by one entry whose action is
`published`, `failed`, `retrying`, `cancelled` respectively. -/
theorem entity_operations_append_one_log (now : Nat) (platform platformPostId : String)
    (metrics : MetricsUpdate) (error : JsError) (reason : String) (post : ScheduledPost) :
    ((∃ t ∈ post.platforms, t.platform = platform) →
      (∃ entry, entry.action = .published
        ∧ (markPlatformAsPublished now platform platformPostId post metrics).executionLogs
            = post.executionLogs ++ [entry])
      ∧ (∃ entry, entry.action = .failed
        ∧ (markPlatformAsFailed now platform error post).executionLogs
            = post.executionLogs ++ [entry]))
    ∧ (post.retryConfig.currentRetries < post.retryConfig.maxRetries →
      ∃ entry, entry.action = .retrying
        ∧ (scheduleRetry now post).executionLogs = post.executionLogs ++ [entry])
    ∧ (∃ entry, entry.action = .cancelled
        ∧ (cancel now post reason).executionLogs = post.executionLogs ++ [entry]) := by
  refine ⟨?_, ?_, ?_⟩
  · intro hfound
    obtain ⟨i, hi⟩ := findIndex_of_mem platform post hfound
    constructor
    · rw [markPlatformAsPublished_found now platform platformPostId post metrics i hi]
      exact ⟨_, rfl, rfl⟩
    · rw [markPlatformAsFailed_found now platform error post i hi]
      exact ⟨_, rfl, rfl⟩
  · intro hgranted
    rw [scheduleRetry_granted now post hgranted]
    exact ⟨_, rfl, rfl⟩
  · exact ⟨_, rfl, (cancel_fields now post reason).2.2.1⟩

/-- C25 (witness): a retry granted to the failed post, whose log was empty. -/
theorem entity_operations_append_one_log_witness :
    ∃ entry, entry.action = .retrying
      ∧ (scheduleRetry 3000 Example.allFailedPost).executionLogs
          = Example.allFailedPost.executionLogs ++ [entry] :=
  (entity_operations_append_one_log 3000 "instagram" "remote-2" {} {} "late"
    Example.allFailedPost).2.1 (by decide)

/-! ## C26 - C28: the branches of `updateOverallStatus` -/

/-- C26.  For every post with a non-empty target list in which all targets share one status
`s`, `updateOverallStatus` sets the post's status to `s` whatever it was before; in particular
all published gives `published` and all cancelled gives `cancelled`. -/
theorem updateOverallStatus_uniform (now : Nat) (post : ScheduledPost) (s : TargetStatus)
    (hne : post.platforms ≠ []) (hall : ∀ t ∈ post.platforms, t.status = s) :
    (updateOverallStatus now post).status = s.toPostStatus
    ∧ (s = .published → (updateOverallStatus now post).status = .published)
    ∧ (s = .cancelled → (updateOverallStatus now post).status = .cancelled) := by
  have h := updateOverallStatus_all_eq now post s hne hall
  refine ⟨h, ?_, ?_⟩
  · intro hs
    rw [h, hs]
    rfl
  · intro hs
    rw [h, hs]
    rfl

/-- C26 (witness): a post recorded as `failed` whose single target is scheduled becomes
`scheduled`. -/
theorem updateOverallStatus_uniform_witness :
    Example.failedPost.status = .failed
    ∧ (updateOverallStatus 3000 Example.failedPost).status = .scheduled :=
  ⟨rfl, (updateOverallStatus_uniform 3000 Example.failedPost .scheduled (by decide)
    (by decide)).1⟩

/-- The status after `updateOverallStatus` when a published and a failed target are both
present. -/
theorem updateOverallStatus_published_and_failed (now : Nat) (post : ScheduledPost)
    (hpublished : ∃ t ∈ post.platforms, t.status = .published)
    (hfailed : ∃ t ∈ post.platforms, t.status = .failed) :
    (updateOverallStatus now post).status = .partially_published := by
  have hp : (post.platforms.map (fun p => p.status)).contains .published = true := by
    obtain ⟨t, ht, hs⟩ := hpublished
    simp only [List.contains_iff_exists_mem_beq, List.mem_map]
    exact ⟨.published, ⟨t, ht, hs⟩, by decide⟩
  have hf : (post.platforms.map (fun p => p.status)).contains .failed = true := by
    obtain ⟨t, ht, hs⟩ := hfailed
    simp only [List.contains_iff_exists_mem_beq, List.mem_map]
    exact ⟨.failed, ⟨t, ht, hs⟩, by decide⟩
  rw [status_after_updateOverallStatus]
  split
  · next s hu =>
    obtain ⟨t1, ht1, hs1⟩ := hpublished
    obtain ⟨t2, ht2, hs2⟩ := hfailed
    have h1 := (all_eq_of_uniqueValues s _ hu).2 _ (List.mem_map.2 ⟨t1, ht1, rfl⟩)
    have h2 := (all_eq_of_uniqueValues s _ hu).2 _ (List.mem_map.2 ⟨t2, ht2, rfl⟩)
    rw [hs1] at h1
    rw [hs2, ← h1] at h2
    exact absurd h2 (by decide)
  · rw [hp, hf]
    rfl

/-- C27.  For every post whose targets include at least one published and at least one failed
target and no target in status scheduled or publishing, `updateOverallStatus` sets the post's
status to `partially_published`. -/
theorem updateOverallStatus_partially_published (now : Nat) (post : ScheduledPost)
    (hpublished : ∃ t ∈ post.platforms, t.status = .published)
    (hfailed : ∃ t ∈ post.platforms, t.status = .failed)
    (_hsettled : ∀ t ∈ post.platforms, t.status ≠ .scheduled ∧ t.status ≠ .publishing) :
    (updateOverallStatus now post).status = .partially_published :=
  updateOverallStatus_published_and_failed now post hpublished hfailed

/-- C27 (witness): Instagram published, Facebook failed. -/
theorem updateOverallStatus_partially_published_witness :
    (updateOverallStatus 3000 { Example.partialPost with status := .publishing }).status
      = .partially_published :=
  updateOverallStatus_partially_published 3000
    { Example.partialPost with status := .publishing }
    ⟨{ platform := "instagram", accountId := 77, status := .published,
       publishedAt := some 1500, platformPostId := some "remote-1" }, by decide, rfl⟩
    ⟨{ platform := "facebook", accountId := 78, status := .failed }, by decide, rfl⟩
    (by decide)

/-- C28 (counterexample).  Instagram publishing, Facebook failed, LinkedIn published: a
target is still publishing and the targets are neither all published nor all cancelled, yet
`updateOverallStatus` sets the status to `partially_published`, not `publishing`. -/
theorem updateOverallStatus_publishing_overridden :
    Example.stillPublishingPost.platforms.map (fun t => t.status)
        = [.publishing, .failed, .published]
    ∧ (updateOverallStatus 3000 Example.stillPublishingPost).status = .partially_published := by
  decide

/-- C28 (amended).  For every post in which at least one target is publishing:
if the targets do not contain both a published and a failed one, `updateOverallStatus` sets
the post's status to `publishing`; if they contain both a published and a failed one, it sets
the status to `partially_published`. -/
theorem updateOverallStatus_publishing (now : Nat) (post : ScheduledPost)
    (hpublishing : ∃ t ∈ post.platforms, t.status = .publishing) :
    (¬ ((∃ t ∈ post.platforms, t.status = .published)
        ∧ (∃ t ∈ post.platforms, t.status = .failed)) →
      (updateOverallStatus now post).status = .publishing)
    ∧ ((∃ t ∈ post.platforms, t.status = .published) →
      (∃ t ∈ post.platforms, t.status = .failed) →
      (updateOverallStatus now post).status = .partially_published) := by
  refine ⟨?_, fun hp hf => updateOverallStatus_published_and_failed now post hp hf⟩
  intro hmixed
  have hcontains : ∀ s : TargetStatus,
      (post.platforms.map (fun p => p.status)).contains s = true ↔
        ∃ t ∈ post.platforms, t.status = s := by
    intro s
    simp [List.contains_iff_exists_mem_beq]
  rw [status_after_updateOverallStatus]
  split
  · next s hu =>
    obtain ⟨t, ht, hs⟩ := hpublishing
    have h1 := (all_eq_of_uniqueValues s _ hu).2 _ (List.mem_map.2 ⟨t, ht, rfl⟩)
    rw [hs] at h1
    rw [← h1]
    rfl
  · have h1 : ((post.platforms.map (fun p => p.status)).contains .published
          && (post.platforms.map (fun p => p.status)).contains .failed) = false := by
      rw [Bool.and_eq_false_iff]
      by_contra hcon
      push_neg at hcon
      apply hmixed
      exact ⟨(hcontains _).1 (by simpa using hcon.1), (hcontains _).1 (by simpa using hcon.2)⟩
    rw [h1, (hcontains .publishing).2 hpublishing]
    rfl

/-- C28 (witness): Instagram published, Facebook publishing gives `publishing`. -/
theorem updateOverallStatus_publishing_witness :
    (updateOverallStatus 3000 { Example.lastTargetPublishingPost with status := .scheduled }).status
      = .publishing :=
  (updateOverallStatus_publishing 3000
    { Example.lastTargetPublishingPost with status := .scheduled }
    ⟨{ platform := "facebook", accountId := 78, status := .publishing }, by decide, rfl⟩).1
    (by
      rintro ⟨_, ⟨t, ht, hs⟩⟩
      have hmem : t ∈ Example.lastTargetPublishingPost.platforms := ht
      simp only [Example.lastTargetPublishingPost, List.mem_cons, List.mem_singleton,
        List.not_mem_nil, or_false] at hmem
      rcases hmem with h | h <;> rw [h] at hs <;> exact absurd hs (by decide))

/-! ## C29: `cancel` on a post that is not terminal -/

/-- C29.  For every non-terminal post, after `cancel(reason)` the post's status is
`cancelled`; target by target, a target that was `scheduled` is the same target with status
`cancelled` and every other target (publishing, published, failed or already cancelled) is
unchanged, so a target is `cancelled` afterwards exactly when it was `scheduled` or already
`cancelled`, and `cancelled` is never entered from `publishing`. -/
theorem cancel_non_terminal (now : Nat) (post : ScheduledPost) (reason : String)
    (_hopen : post.status ≠ .published ∧ post.status ≠ .failed ∧ post.status ≠ .cancelled) :
    (cancel now post reason).status = .cancelled
    ∧ List.Forall₂
        (fun before after =>
          (before.status = .scheduled → after = { before with status := .cancelled })
          ∧ (before.status ≠ .scheduled → after = before)
          ∧ (after.status = .cancelled ↔
              before.status = .scheduled ∨ before.status = .cancelled))
        post.platforms (cancel now post reason).platforms := by
  obtain ⟨hs, hp, _⟩ := cancel_fields now post reason
  refine ⟨hs, ?_⟩
  rw [hp, List.forall₂_map_right_iff, List.forall₂_same]
  intro t _
  by_cases h : t.status = .scheduled
  · simp [h]
  · simp [h]

/-- C29 (witness): one target in each status; only the scheduled one changes. -/
theorem cancel_non_terminal_witness :
    (cancel 3000 Example.allStatusesPost).status = .cancelled
    ∧ (cancel 3000 Example.allStatusesPost).platforms.map (fun t => t.status)
        = [.cancelled, .publishing, .published, .failed, .cancelled] :=
  ⟨(cancel_non_terminal 3000 Example.allStatusesPost "Cancelled by user"
      ⟨by decide, by decide, by decide⟩).1, by decide⟩

/-! ## C30: the credits charged by the usage middleware -/

/-- The user-level limit check leaves the credits as they are. -/
theorem userCheckUsageLimit_credits (now : UsageLimit.JsDate) (type : String)
    (user : UsageLimit.User) :
    (UsageLimit.userCheckUsageLimit now type user).2.credits = user.credits := by
  unfold UsageLimit.userCheckUsageLimit
  simp only []
  split_ifs <;> rfl

/-- Outside the trial period, a request for a generation that reaches `next()` has raised the
stored `credits.used` by two: once in `useCredits`, once more in `incrementUsage`. -/
theorem checkUsageLimit_generations_charge (now : UsageLimit.JsDate) (env : UsageLimit.SaveEnv)
    (user : UsageLimit.User) (credits : UsageLimit.Credits)
    (htrial : UsageLimit.isTrialPeriod now user = false)
    (hnext : (UsageLimit.checkUsageLimit now env (some user) "generations").1 = .next credits) :
    ((UsageLimit.checkUsageLimit now env (some user) "generations").2.map
        (fun u => u.credits.used)) = some (user.credits.used + 1 + 1)
    ∧ credits.used = user.credits.used + 1 + 1 := by
  have hc := userCheckUsageLimit_credits now "generations" user
  cases hplan : user.plan <;> cases hexp : UsageLimit.planExpired now user
    <;> cases hc1 : (UsageLimit.userCheckUsageLimit now "generations" user).1
    <;> cases hbal : UsageLimit.checkCreditBalance
          (UsageLimit.userCheckUsageLimit now "generations" user).2 1
    <;> cases h5 : env.useCreditsError <;> cases h6 : env.incrementUsageError
    <;> simp [UsageLimit.checkUsageLimit, htrial, hplan, hexp, hc1, hbal, h5, h6,
          UsageLimit.creditsNeeded, UsageLimit.useCredits, UsageLimit.incrementUsage, hc]
          at hnext ⊢
  rw [← hnext]

/-- C30 (evaluation at the failing input).  A user outside the trial period, with a plan that
has not expired, 9 of 10 credits used and counters below the limits asks for a generation: the
middleware checks 1 credit, calls `next()`, and the stored `credits.used` is 11, two more than
before and above `credits.total`.  With 8 of 10 credits used and an image generation it checks
2 credits and the stored `credits.used` is 11, three more than before. -/
theorem checkUsageLimit_charges_twice :
    (UsageLimit.isTrialPeriod Example.marchFirst Example.lastCreditUser = false
      ∧ Example.lastCreditUser.plan = true
      ∧ UsageLimit.planExpired Example.marchFirst Example.lastCreditUser = false
      ∧ UsageLimit.creditsNeeded "generations" = some 1
      ∧ UsageLimit.checkCreditBalance Example.lastCreditUser 1 = true
      ∧ (UsageLimit.checkUsageLimit Example.marchFirst {} (some Example.lastCreditUser)
          "generations").1 = .next { total := 10, used := 11 }
      ∧ ((UsageLimit.checkUsageLimit Example.marchFirst {} (some Example.lastCreditUser)
          "generations").2.map (fun u => (u.credits.used, u.credits.total))) = some (11, 10))
    ∧ (UsageLimit.creditsNeeded "imageGenerations" = some 2
      ∧ UsageLimit.checkCreditBalance Example.twoCreditsUser 2 = true
      ∧ (UsageLimit.checkUsageLimit Example.marchFirst {} (some Example.twoCreditsUser)
          "imageGenerations").1 = .next { total := 10, used := 11 }
      ∧ ((UsageLimit.checkUsageLimit Example.marchFirst {} (some Example.twoCreditsUser)
          "imageGenerations").2.map (fun u => (u.credits.used, u.credits.total)))
          = some (11, 10)) := by
  decide

end CopyaBack
